import Mathlib

/-!
Verification of the flight-record store of the operator-station repository
(Go package `data_analysis`).

The canonical SQLite store is modelled relationally: each table is a list of
row structures, and the AUTOINCREMENT id counters are carried explicitly.
SQL `REAL` columns (Go `float64`) are modelled as `ℚ`, `INTEGER` columns as
`Int`/`Nat`, and nullable columns as `Option`.  Wall-clock columns
(`created_at DATETIME DEFAULT CURRENT_TIMESTAMP`) are omitted: no operation
of the package reads them back other than to display them.
-/

namespace OperatorStation

/-- Nullable SQL REAL column (Go `sql.NullFloat64`). -/
abbrev NFloat := Option ℚ

/-- Nullable SQL INTEGER column (Go `sql.NullInt64`). -/
abbrev NInt := Option Int

/-- Nullable SQL TEXT column (Go `sql.NullString`). -/
abbrev NText := Option String

/-- A row of the `flight` table.  The 23 data columns are exactly those read
and written by `importFlights` (part_005:308-334) and `duplicateFlightRecord`
(data_analysis.go:1151-1199). -/
structure FlightRow where
  id : Nat
  title : NText
  flight_number : NText
  start_zulu_sim_time : String
  end_zulu_sim_time : String
  description : NText
  user_aircraft_seq_nr : NInt
  surface_type : NInt
  surface_condition : NInt
  on_any_runway : NInt
  on_parking_spot : NInt
  ground_altitude : NFloat
  ambient_temperature : NFloat
  total_air_temperature : NFloat
  wind_speed : NFloat
  wind_direction : NFloat
  visibility : NFloat
  sea_level_pressure : NFloat
  pitot_icing : NFloat
  structural_icing : NFloat
  precipitation_state : NInt
  in_clouds : NInt
  start_local_sim_time : String
  end_local_sim_time : String
deriving DecidableEq, Repr

/-- A row of the `aircraft` table; the column `type` is called
`aircraftType` here (Go's scan variable name) because `type` is a Lean
keyword.  Columns as in `importAircraftForFlight` (part_005:401-418) and
`duplicateAircraftRecord` (data_analysis.go:1215-1240). -/
structure AircraftRow where
  id : Nat
  flight_id : Nat
  seq_nr : NInt
  aircraftType : String
  time_offset : NInt
  tail_number : NText
  airline : NText
  initial_airspeed : NInt
  altitude_above_ground : NFloat
  start_on_ground : NInt
deriving DecidableEq, Repr

/-- A row of the `position` table (part_005:486-491, with the
`indicated_airspeed` column added by `ensurePositionTableColumns`). -/
structure PositionRow where
  aircraft_id : Nat
  timestamp : Int
  latitude : NFloat
  longitude : NFloat
  altitude : NFloat
  indicated_altitude : NFloat
  calibrated_indicated_altitude : NFloat
  pressure_altitude : NFloat
  indicated_airspeed : NFloat
deriving DecidableEq, Repr

/-- A row of the `attitude` table (part_005:539-543). -/
structure AttitudeRow where
  aircraft_id : Nat
  timestamp : Int
  pitch : NFloat
  bank : NFloat
  true_heading : NFloat
  velocity_x : NFloat
  velocity_y : NFloat
  velocity_z : NFloat
  on_ground : NInt
deriving DecidableEq, Repr

/-- A row of the `engine` table (part_005:606-622): timestamp plus the 28
lever/battery/starter/combustion columns. -/
structure EngineRow where
  aircraft_id : Nat
  timestamp : Int
  throttle_lever_position1 : NFloat
  throttle_lever_position2 : NFloat
  throttle_lever_position3 : NFloat
  throttle_lever_position4 : NFloat
  propeller_lever_position1 : NFloat
  propeller_lever_position2 : NFloat
  propeller_lever_position3 : NFloat
  propeller_lever_position4 : NFloat
  mixture_lever_position1 : NFloat
  mixture_lever_position2 : NFloat
  mixture_lever_position3 : NFloat
  mixture_lever_position4 : NFloat
  cowl_flap_position1 : NFloat
  cowl_flap_position2 : NFloat
  cowl_flap_position3 : NFloat
  cowl_flap_position4 : NFloat
  electrical_master_battery1 : NInt
  electrical_master_battery2 : NInt
  electrical_master_battery3 : NInt
  electrical_master_battery4 : NInt
  general_engine_starter1 : NInt
  general_engine_starter2 : NInt
  general_engine_starter3 : NInt
  general_engine_starter4 : NInt
  general_engine_combustion1 : NInt
  general_engine_combustion2 : NInt
  general_engine_combustion3 : NInt
  general_engine_combustion4 : NInt
deriving DecidableEq, Repr

/-- A row of the `markers` table (DDL in `ensureMarkersTable`,
part_005:116-130).  The `type` column is called `mtype` (Lean keyword);
its schema default is the string `regular`.  `created_at` omitted
(wall clock, never read back by the modelled operations). -/
structure MarkerRow where
  id : Nat
  flight_id : Nat
  time_seconds : ℚ
  label : String
  mtype : String
deriving DecidableEq, Repr

/-- The five further per-aircraft tables that `DeleteFlight`
(part_005:985-1003) clears: handle, light, primary_flight_control,
secondary_flight_control, waypoint.  Their rows are modelled only by their
owning-table tag and `aircraft_id` foreign key, the only columns the
modelled operations touch. -/
inductive ExtraTable
  | handle
  | light
  | primary_flight_control
  | secondary_flight_control
  | waypoint
deriving DecidableEq, Repr

/-- A row of one of the five extra per-aircraft tables. -/
structure ExtraRow where
  table_tag : ExtraTable
  aircraft_id : Nat
deriving DecidableEq, Repr

/-- The canonical store (`data/data_analysis.db`): its tables together with
the AUTOINCREMENT counters that produce `LastInsertId` values. -/
structure Store where
  nextFlightId : Nat
  nextAircraftId : Nat
  nextMarkerId : Nat
  flights : List FlightRow
  aircraft : List AircraftRow
  position : List PositionRow
  attitude : List AttitudeRow
  engine : List EngineRow
  markers : List MarkerRow
  extraRows : List ExtraRow
deriving DecidableEq, Repr

/-- Well-formedness of a reachable store: AUTOINCREMENT counters dominate
all existing ids, primary keys of `aircraft` are distinct, and foreign keys
reference rows that could have been assigned. -/
def WF (s : Store) : Prop :=
  (∀ f ∈ s.flights, f.id < s.nextFlightId) ∧
  (∀ a ∈ s.aircraft, a.id < s.nextAircraftId) ∧
  (s.aircraft.map (fun a => a.id)).Nodup ∧
  (∀ a ∈ s.aircraft, a.flight_id < s.nextFlightId) ∧
  (∀ r ∈ s.position, r.aircraft_id < s.nextAircraftId) ∧
  (∀ r ∈ s.attitude, r.aircraft_id < s.nextAircraftId) ∧
  (∀ r ∈ s.engine, r.aircraft_id < s.nextAircraftId) ∧
  (∀ m ∈ s.markers, m.flight_id < s.nextFlightId)

/-- `SELECT ... FROM aircraft WHERE flight_id = ?`
(`getAircraftByFlightIDFromMainDB`, data_analysis.go:335-365). -/
def aircraftOf (s : Store) (fid : Nat) : List AircraftRow :=
  s.aircraft.filter (fun a => a.flight_id == fid)

/-- `SELECT ... FROM position WHERE aircraft_id = ?`. -/
def positionOf (s : Store) (aid : Nat) : List PositionRow :=
  s.position.filter (fun r => r.aircraft_id == aid)

/-- `SELECT ... FROM attitude WHERE aircraft_id = ?`. -/
def attitudeOf (s : Store) (aid : Nat) : List AttitudeRow :=
  s.attitude.filter (fun r => r.aircraft_id == aid)

/-- `SELECT ... FROM engine WHERE aircraft_id = ?`. -/
def engineOf (s : Store) (aid : Nat) : List EngineRow :=
  s.engine.filter (fun r => r.aircraft_id == aid)

/-- `SELECT ... FROM markers WHERE flight_id = ?`
(`getMarkersForFlight`, data_analysis.go:600-625). -/
def markersOf (s : Store) (fid : Nat) : List MarkerRow :=
  s.markers.filter (fun m => m.flight_id == fid)

/-- `SELECT ... FROM flight WHERE id = ?` restricted to the row list. -/
def flightRowsOf (s : Store) (fid : Nat) : List FlightRow :=
  s.flights.filter (fun f => f.id == fid)

/-! ## CSV header detection (statistics.go `containsFlightDataHeaders`) -/

/-- The keyword list of `containsFlightDataHeaders` (statistics.go:316). -/
def expectedHeaders : List String := ["Time", "Altitude", "Latitude", "Longitude"]

/-- Go `strings.ToLower` at rune granularity (the inputs here are ASCII). -/
def lowerList (s : String) : List Char := s.toList.map Char.toLower

/-- Go `strings.Contains s sub` at rune granularity. -/
def strContains (s sub : List Char) : Bool := decide (sub <:+: s)

/-- `containsFlightDataHeaders` (statistics.go:315-330).  The Go inner loop
breaks at the first keyword matching a column name, so each column
contributes at most 1 to `foundCount`; that loop is `List.any` here and the
outer accumulation is `countP`. -/
def containsFlightDataHeaders (record : List String) : Bool :=
  let foundCount := record.countP
    (fun header => expectedHeaders.any (fun expected =>
      strContains (lowerList header) (lowerList expected)))
  decide (3 ≤ foundCount)

/-- The claim and spec wording counts KEYWORDS: a row is recognized when at
least 3 of the 4 keywords each appear in some column name.  Stated only to
compare against `containsFlightDataHeaders`, which counts matching COLUMNS
instead. -/
def specKeywordsPresentCount (record : List String) : Nat :=
  expectedHeaders.countP
    (fun expected => record.any (fun header =>
      strContains (lowerList header) (lowerList expected)))

/-! ## Per-aircraft statistics (statistics.go) -/

/-- Go struct `PositionPoint` (types.go:24-33). -/
structure PositionPoint where
  timestamp : Int
  timestampSeconds : ℚ
  altitude : ℚ
  latitude : ℚ
  longitude : ℚ
  indicatedAltitude : ℚ
  pressureAltitude : ℚ
  airspeed : ℚ
deriving DecidableEq, Repr

/-- Go struct `DataStatistics` (statistics.go:16-25).  The `StdDev` field,
`math.Sqrt variance`, is irrational in general and is referenced by no
claim, so it is not carried. -/
structure DataStatistics where
  count : Nat
  mean : ℚ
  variance : ℚ
  min : ℚ
  max : ℚ
  range : ℚ
  median : ℚ
deriving DecidableEq, Repr

/-- Go struct `FlightStatistics` (statistics.go:8-13); `nil` pointers are
`none`. -/
structure FlightStatistics where
  airspeedStats : Option DataStatistics
  indicatedAltitudeStats : Option DataStatistics
  altitudeStats : Option DataStatistics
  pressureAltitudeStats : Option DataStatistics
deriving DecidableEq, Repr

/-- Ascending insertion of one element, for `sortQ`. -/
def insertSorted (x : ℚ) : List ℚ → List ℚ
  | [] => [x]
  | y :: ys => if x ≤ y then x :: y :: ys else y :: insertSorted x ys

/-- Extensional model of `quickSort` (statistics.go:132-153): both produce
the ascending reordering of the input; the Lomuto pivoting of the Go code is
an in-place mechanism with the same result. -/
def sortQ : List ℚ → List ℚ
  | [] => []
  | x :: xs => insertSorted x (sortQ xs)

/-- `calculateDataStatistics` (statistics.go:80-129); `nil` return is
`none`. -/
def calculateDataStatistics (data : List ℚ) : Option DataStatistics :=
  if data.length = 0 then none
  else
    let sortedData := sortQ data
    let count := data.length
    let sum := data.foldl (fun acc v => acc + v) (0 : ℚ)
    let minV := sortedData.headD 0
    let maxV := sortedData.getLastD 0
    let mean := sum / count
    let sumSquaredDiff := data.foldl (fun acc v => acc + (v - mean) * (v - mean)) (0 : ℚ)
    let variance := sumSquaredDiff / count
    let median :=
      if count % 2 = 0 then ((sortedData.getD (count / 2 - 1) 0) + sortedData.getD (count / 2) 0) / 2
      else sortedData.getD (count / 2) 0
    some { count := count, mean := mean, variance := variance,
           min := minV, max := maxV, range := maxV - minV, median := median }

/-- The airspeed series extracted by `CalculateFlightStatistics`
(statistics.go:42-45): only strictly positive values are kept. -/
def extractAirspeeds (pts : List PositionPoint) : List ℚ :=
  (pts.map (fun p => p.airspeed)).filter (fun v => 0 < v)

/-- An altitude-like series extracted by `CalculateFlightStatistics`
(statistics.go:46-54): exactly-zero values are dropped, negative values are
kept. -/
def extractNonzero (series : List ℚ) : List ℚ :=
  series.filter (fun v => v ≠ 0)

/-- `CalculateFlightStatistics` (statistics.go:28-77).  The Go map over
aircraft labels is an association list here. -/
def CalculateFlightStatistics (positionData : List (String × List PositionPoint)) :
    List (String × FlightStatistics) :=
  positionData.filterMap (fun entry =>
    let pts := entry.2
    if pts.length = 0 then none
    else
      let airspeeds := extractAirspeeds pts
      let indicatedAltitudes := extractNonzero (pts.map (fun p => p.indicatedAltitude))
      let altitudes := extractNonzero (pts.map (fun p => p.altitude))
      let pressureAltitudes := extractNonzero (pts.map (fun p => p.pressureAltitude))
      some (entry.1,
        { airspeedStats := if 0 < airspeeds.length then calculateDataStatistics airspeeds else none,
          indicatedAltitudeStats :=
            if 0 < indicatedAltitudes.length then calculateDataStatistics indicatedAltitudes else none,
          altitudeStats := if 0 < altitudes.length then calculateDataStatistics altitudes else none,
          pressureAltitudeStats :=
            if 0 < pressureAltitudes.length then calculateDataStatistics pressureAltitudes else none }))

/-! ## Marker operations (data_analysis.go:627-812) -/

/-- `createMarker` (data_analysis.go:627-658): plain INSERT, with the Go-side
default `regular` only when the incoming type is the empty string. -/
def createMarker (s : Store) (flight_id : Nat) (time : ℚ) (label : String) (mtype : String) :
    Store × MarkerRow :=
  let t := if mtype = "" then "regular" else mtype
  let m : MarkerRow :=
    { id := s.nextMarkerId, flight_id := flight_id, time_seconds := time, label := label, mtype := t }
  ({ s with nextMarkerId := s.nextMarkerId + 1, markers := s.markers ++ [m] }, m)

/-- `getTrimMarker` (data_analysis.go:784-798): `QueryRow` yields the first
matching row. -/
def getTrimMarker (s : Store) (fid : Nat) (markerType : String) : Option MarkerRow :=
  s.markers.find? (fun m => m.flight_id == fid && m.mtype == markerType)

/-- `createOrUpdateTrimMarker` (data_analysis.go:750-781). The UPDATE branch
rewrites `time_seconds` and `label` of the row with the found primary key. -/
def createOrUpdateTrimMarker (s : Store) (fid : Nat) (markerType : String) (time : ℚ)
    (label : String) : Except String (Store × MarkerRow) :=
  if markerType ≠ "trim_start" ∧ markerType ≠ "trim_end" then
    .error "invalid trim marker type"
  else
    match getTrimMarker s fid markerType with
    | some existingMarker =>
        .ok ({ s with markers := s.markers.map (fun m =>
                 if m.id == existingMarker.id then
                   { m with time_seconds := time, label := label }
                 else m) },
             { existingMarker with time_seconds := time, label := label })
    | none => .ok (createMarker s fid time label markerType)

/-- Number of markers of one trim type attached to one flight. -/
def trimTypeCount (s : Store) (fid : Nat) (markerType : String) : Nat :=
  (s.markers.filter (fun m => m.flight_id == fid && m.mtype == markerType)).length

/-- The claimed invariant: at most one `trim_start` and at most one
`trim_end` marker per flight. -/
def AtMostOneTrim (s : Store) : Prop :=
  ∀ fid, trimTypeCount s fid "trim_start" ≤ 1 ∧ trimTypeCount s fid "trim_end" ≤ 1

/-! ## Derivation engine (data_analysis.go:1092-1902)

`duplicateFlight` and `trimFlight` share one transactional skeleton: copy
the flight row under a new title, then per aircraft copy the aircraft row
and its three telemetry series, then copy markers.  They differ only in the
four per-collection copy functions, so the skeleton is `copyFlightCore`
below, instantiated twice. -/

/-- Go `int64(f)` applied to a `float64`: truncation toward zero. -/
def goInt64 (q : ℚ) : Int := if 0 ≤ q then ⌊q⌋ else ⌈q⌉

/-- `SELECT MIN(t)` over the nonempty list of int values; the callers never
use the `[]` default because they fail first on the empty series. -/
def minIntList : List Int → Int
  | [] => 0
  | [x] => x
  | x :: y :: xs => min x (minIntList (y :: xs))

/-- `MAX` counterpart of `minIntList`, used only to state claims. -/
def maxIntList : List Int → Int
  | [] => 0
  | [x] => x
  | x :: y :: xs => max x (maxIntList (y :: xs))

/-- A row of the markers INSERT performed while copying a flight:
`(time_seconds, label, type)`; `duplicateMarkers` omits the type column so
the schema default applies. -/
structure MarkerInsert where
  time_seconds : ℚ
  label : String
  mtype : String
deriving DecidableEq, Repr

/-- The per-collection copy functions distinguishing `duplicateFlight` from
`trimFlight`.  Each receives the source aircraft's (resp. flight's) rows as
read inside the transaction and returns the rows to insert, still keyed by
the OLD aircraft id (re-keying happens at the INSERT). -/
structure CopyFns where
  copyPos : List PositionRow → Except String (List PositionRow)
  copyAtt : List AttitudeRow → Except String (List AttitudeRow)
  copyEng : List EngineRow → Except String (List EngineRow)
  copyMark : List MarkerRow → List MarkerInsert

/-- Copy functions of `duplicateFlight`: telemetry rows verbatim
(data_analysis.go:1260-1452); markers via an INSERT naming only
`flight_id, time_seconds, label` (data_analysis.go:1468-1471), so the
copied row's `type` is the schema default `regular` (part_005:122). -/
def dupCopyFns : CopyFns where
  copyPos rows := .ok rows
  copyAtt rows := .ok rows
  copyEng rows := .ok rows
  copyMark ms := ms.map (fun m =>
    { time_seconds := m.time_seconds, label := m.label, mtype := "regular" })

/-- `duplicatePositionDataTrimmed` (data_analysis.go:1615-1680) as a row
transformation.  On an empty series `SELECT MIN(timestamp)` scans SQL NULL
into an `int64`, which errors (and is not `sql.ErrNoRows`), so the Go
function returns that error. -/
def trimPosCopy (startTime endTime : ℚ) (rows : List PositionRow) :
    Except String (List PositionRow) :=
  match rows with
  | [] => .error "converting NULL to int64"
  | _ =>
    let minTimestamp := minIntList (rows.map (fun r => r.timestamp))
    let startTimestamp := minTimestamp + goInt64 (startTime * 1000)
    let endTimestamp := minTimestamp + goInt64 (endTime * 1000)
    .ok ((rows.filter (fun r => startTimestamp ≤ r.timestamp ∧ r.timestamp ≤ endTimestamp)).map
      (fun r => { r with timestamp := minTimestamp + (r.timestamp - startTimestamp) }))

/-- `duplicateAttitudeDataTrimmed` (data_analysis.go:1683-1748). -/
def trimAttCopy (startTime endTime : ℚ) (rows : List AttitudeRow) :
    Except String (List AttitudeRow) :=
  match rows with
  | [] => .error "converting NULL to int64"
  | _ =>
    let minTimestamp := minIntList (rows.map (fun r => r.timestamp))
    let startTimestamp := minTimestamp + goInt64 (startTime * 1000)
    let endTimestamp := minTimestamp + goInt64 (endTime * 1000)
    .ok ((rows.filter (fun r => startTimestamp ≤ r.timestamp ∧ r.timestamp ≤ endTimestamp)).map
      (fun r => { r with timestamp := minTimestamp + (r.timestamp - startTimestamp) }))

/-- `duplicateEngineDataTrimmed` (data_analysis.go:1751-1855). -/
def trimEngCopy (startTime endTime : ℚ) (rows : List EngineRow) :
    Except String (List EngineRow) :=
  match rows with
  | [] => .error "converting NULL to int64"
  | _ =>
    let minTimestamp := minIntList (rows.map (fun r => r.timestamp))
    let startTimestamp := minTimestamp + goInt64 (startTime * 1000)
    let endTimestamp := minTimestamp + goInt64 (endTime * 1000)
    .ok ((rows.filter (fun r => startTimestamp ≤ r.timestamp ∧ r.timestamp ≤ endTimestamp)).map
      (fun r => { r with timestamp := minTimestamp + (r.timestamp - startTimestamp) }))

/-- `duplicateMarkersTrimmed` (data_analysis.go:1858-1902): markers inside
the window in flight-relative seconds, shifted by `-startTime`, type
preserved via `COALESCE(type, 'regular')` (non-NULL in this model). -/
def trimMarkCopy (startTime endTime : ℚ) (ms : List MarkerRow) : List MarkerInsert :=
  (ms.filter (fun m => startTime ≤ m.time_seconds ∧ m.time_seconds ≤ endTime)).map
    (fun m => { time_seconds := m.time_seconds - startTime, label := m.label, mtype := m.mtype })

/-- Copy functions of `trimFlight`. -/
def trimCopyFns (startTime endTime : ℚ) : CopyFns where
  copyPos := trimPosCopy startTime endTime
  copyAtt := trimAttCopy startTime endTime
  copyEng := trimEngCopy startTime endTime
  copyMark := trimMarkCopy startTime endTime

/-- One iteration of the aircraft loop shared by `duplicateFlight` Step 3
(data_analysis.go:1114-1132) and `trimFlight` Step 3 (:1580-1598):
`duplicateAircraftRecord` re-reads the aircraft row by primary key to obtain
all columns (:1215-1231), inserts it under the new flight, then copies the
three telemetry series re-keyed to the new aircraft id. -/
def copyAircraftStep (fns : CopyFns) (newFlightID : Nat) (st : Store) (ac : AircraftRow) :
    Except String Store :=
  match st.aircraft.find? (fun a => a.id == ac.id) with
  | none => .error "aircraft row not found"
  | some acFull =>
    let newAircraftID := st.nextAircraftId
    let st1 := { st with
      nextAircraftId := st.nextAircraftId + 1
      aircraft := st.aircraft ++
        [{ acFull with id := newAircraftID, flight_id := newFlightID }] }
    match fns.copyPos (positionOf st1 ac.id) with
    | .error e => .error e
    | .ok ps =>
      let st2 := { st1 with
        position := st1.position ++ ps.map (fun r => { r with aircraft_id := newAircraftID }) }
      match fns.copyAtt (attitudeOf st2 ac.id) with
      | .error e => .error e
      | .ok as1 =>
        let st3 := { st2 with
          attitude := st2.attitude ++ as1.map (fun r => { r with aircraft_id := newAircraftID }) }
        match fns.copyEng (engineOf st3 ac.id) with
        | .error e => .error e
        | .ok es =>
          .ok { st3 with
            engine := st3.engine ++ es.map (fun r => { r with aircraft_id := newAircraftID }) }

/-- The `for _, ac := range aircraft` loop of the shared skeleton. -/
def copyAircraftLoop (fns : CopyFns) (newFlightID : Nat) :
    Store → List AircraftRow → Except String Store
  | st, [] => .ok st
  | st, ac :: rest =>
    match copyAircraftStep fns newFlightID st ac with
    | .error e => .error e
    | .ok st1 => copyAircraftLoop fns newFlightID st1 rest

/-- The marker INSERT loop of `duplicateMarkers`/`duplicateMarkersTrimmed`,
appending rows with fresh AUTOINCREMENT ids under the new flight. -/
def insertMarkerRows (newFlightID : Nat) : Store → List MarkerInsert → Store
  | st, [] => st
  | st, ins :: rest =>
    insertMarkerRows newFlightID
      { st with
        nextMarkerId := st.nextMarkerId + 1
        markers := st.markers ++
          [{ id := st.nextMarkerId, flight_id := newFlightID,
             time_seconds := ins.time_seconds, label := ins.label, mtype := ins.mtype }] }
      rest

/-- The shared transactional skeleton of `duplicateFlight`
(data_analysis.go:1093-1146) and `trimFlight` (:1559-1612).  Any failing
step returns before `tx.Commit()`, and the deferred `tx.Rollback()` makes
the call leave the canonical store unchanged, which the `Except` error
represents.  The aircraft list is read through `mainDB` outside the
transaction (:1108/:1574), hence from the pre-state. -/
def copyFlightCore (fns : CopyFns) (s : Store) (originalFlightID : Nat) (newTitle : String) :
    Except String (Nat × Store) :=
  match s.flights.find? (fun f => f.id == originalFlightID) with
  | none => .error "failed to duplicate flight record"
  | some f =>
    let newFlightID := s.nextFlightId
    let s1 := { s with
      nextFlightId := s.nextFlightId + 1
      flights := s.flights ++ [{ f with id := newFlightID, title := some newTitle }] }
    match copyAircraftLoop fns newFlightID s1 (aircraftOf s originalFlightID) with
    | .error e => .error e
    | .ok s2 =>
      let s3 := insertMarkerRows newFlightID s2 (fns.copyMark (markersOf s2 originalFlightID))
      .ok (newFlightID, s3)

/-- `duplicateFlight` (data_analysis.go:1092-1146). -/
def duplicateFlight (s : Store) (originalFlightID : Nat) (newTitle : String) :
    Except String (Nat × Store) :=
  copyFlightCore dupCopyFns s originalFlightID newTitle

/-- `trimFlight` (data_analysis.go:1558-1612). -/
def trimFlight (s : Store) (originalFlightID : Nat) (newTitle : String)
    (startTime endTime : ℚ) : Except String (Nat × Store) :=
  copyFlightCore (trimCopyFns startTime endTime) s originalFlightID newTitle

/-- `flightTitleExists` (data_analysis.go:1082-1090): case-sensitive SQL
equality; a NULL title matches nothing. -/
def flightTitleExists (s : Store) (title : String) : Bool :=
  0 < (s.flights.filter (fun f => f.title == some title)).length

/-- The HTTP outcome of the trim endpoint. -/
inductive TrimResponse
  | badRequest (msg : String)
  | conflict (msg : String)
  | serverError (msg : String)
  | success (newFlightID : Nat)
deriving DecidableEq, Repr

/-- `handleTrimFlight` (data_analysis.go:1498-1556): request validation in
source order, then the transactional trim.  Every rejection happens before
`trimFlight` is called, so the store is returned unchanged. -/
def handleTrimFlight (s : Store) (flight_id : Nat) (new_title : String)
    (start_time end_time : ℚ) : TrimResponse × Store :=
  if flight_id = 0 ∨ new_title = "" then
    (.badRequest "Flight ID and new title are required", s)
  else if end_time ≤ start_time then
    (.badRequest "End time must be greater than start time", s)
  else if end_time - start_time < 1 then
    (.badRequest "Trim range too small (minimum 1 second)", s)
  else if flightTitleExists s new_title then
    (.conflict "A flight with this title already exists", s)
  else
    match trimFlight s flight_id new_title start_time end_time with
    | .error e => (.serverError e, s)
    | .ok r => (.success r.1, r.2)

/-! ## DeleteFlight (part_005:948-1038) -/

/-- The two client-distinguishable errors of `DeleteFlight`:
`invalid flight ID: %d` for a nonpositive id (part_005:950-952) versus
`flight with ID %d not found` when no row was deleted (part_005:1027-1029). -/
inductive DeleteError
  | invalidID
  | notFound
deriving DecidableEq, Repr

/-- The per-aircraft deletion block of `DeleteFlight` (part_005:968-1004):
DELETE from position, attitude, engine and the five extra per-aircraft
tables for one aircraft id. -/
def deleteAircraftData (st : Store) (aid : Nat) : Store :=
  { st with
    position := st.position.filter (fun r => ¬ r.aircraft_id == aid),
    attitude := st.attitude.filter (fun r => ¬ r.aircraft_id == aid),
    engine := st.engine.filter (fun r => ¬ r.aircraft_id == aid),
    extraRows := st.extraRows.filter (fun r => ¬ r.aircraft_id == aid) }

/-- `DeleteFlight` (part_005:949-1038): children first (three telemetry
tables plus the five extra per-aircraft tables per aircraft id, then
markers, then aircraft), then the flight row; if the flight row was absent
(`rowsAffected == 0`) the transaction is rolled back, represented by
returning the pre-state. -/
def DeleteFlight (s : Store) (flightID : Int) : Option DeleteError × Store :=
  if flightID ≤ 0 then (some .invalidID, s)
  else
    let fid := flightID.toNat
    let aircraftIDs := (aircraftOf s fid).map (fun a => a.id)
    let st1 := aircraftIDs.foldl deleteAircraftData s
    let st2 := { st1 with markers := st1.markers.filter (fun m => ¬ m.flight_id == fid) }
    let st3 := { st2 with aircraft := st2.aircraft.filter (fun a => ¬ a.flight_id == fid) }
    let rowsAffected : Nat := (st3.flights.filter (fun f => f.id == fid)).length
    let st4 := { st3 with flights := st3.flights.filter (fun f => ¬ f.id == fid) }
    if rowsAffected = 0 then (some .notFound, s) else (none, st4)

/-! ## Foreign-database import (part_005:249-669) -/

/-- A foreign SQLite source: the set of table names present, plus its rows.
Row shapes coincide with the canonical ones because the import reads
exactly the canonical columns (except `position.indicated_airspeed`,
which it does not read). -/
structure SourceDB where
  tables : List String
  flights : List FlightRow
  aircraft : List AircraftRow
  position : List PositionRow
  attitude : List AttitudeRow
  engine : List EngineRow
deriving DecidableEq, Repr

/-- Table list of `verifyDatabaseSchema` (part_005:293). -/
def requiredTables : List String := ["flight", "aircraft", "position", "attitude", "engine"]

/-- `verifyDatabaseSchema` (part_005:292-304): the first missing required
table produces the error. -/
def verifyDatabaseSchema (src : SourceDB) : Option String :=
  match requiredTables.find? (fun t => ¬ src.tables.contains t) with
  | some t => some ("required table " ++ t ++ " not found")
  | none => none

/-- Go struct `Flight` (types.go:4-11) as built by `importFlights`. -/
structure FlightSummary where
  id : Nat
  sourceID : Nat
  title : String
  flightNumber : String
  startTime : String
  endTime : String
deriving DecidableEq, Repr

/-- A failure oracle deciding which canonical-store write (counted in
execution order within the transaction) errors, modelling driver-level
row-write failures. -/
def Oracle := Nat → Bool

/-- An open transaction: the working state plus the write counter that the
oracle consults. -/
structure Tx where
  store : Store
  writes : Nat

/-- One `tx.Exec`/`stmt.Exec` INSERT: fails when the oracle says so. -/
def txWrite (o : Oracle) (tx : Tx) (apply : Store → Store) : Except String Tx :=
  if o tx.writes then .error "write failed"
  else .ok { store := apply tx.store, writes := tx.writes + 1 }

/-- The row loop of `importFlights` (part_005:307-396): insert each foreign
flight row verbatim under a fresh id and record the id mapping.  The
`Untitled` / `No Number` defaults are applied only to the returned structs,
not to the inserted rows.  The source list is taken in the scan order
(`ORDER BY start_zulu_sim_time DESC`), which only affects id assignment. -/
def importFlightsLoop (o : Oracle) :
    Tx → List FlightSummary → List FlightRow → Except String (Tx × List FlightSummary)
  | tx, acc, [] => .ok (tx, acc)
  | tx, acc, row :: rest =>
    let newID := tx.store.nextFlightId
    match txWrite o tx (fun st => { st with
        nextFlightId := st.nextFlightId + 1
        flights := st.flights ++ [{ row with id := newID }] }) with
    | .error e => .error e
    | .ok tx1 =>
      let title := row.title.getD ""
      let flightNumber := row.flight_number.getD ""
      let summary : FlightSummary :=
        { id := newID, sourceID := row.id,
          title := if title = "" then "Untitled" else title,
          flightNumber := if flightNumber = "" then "No Number" else flightNumber,
          startTime := row.start_zulu_sim_time, endTime := row.end_zulu_sim_time }
      importFlightsLoop o tx1 (acc ++ [summary]) rest

/-- Row loop of `importPositionData` (part_005:471-522).  The import reads
and inserts the seven baseline position columns only, so the canonical
`indicated_airspeed` stays NULL. -/
def importPositionLoop (o : Oracle) (newAircraftID : Nat) :
    Tx → List PositionRow → Except String Tx
  | tx, [] => .ok tx
  | tx, r :: rest =>
    match txWrite o tx (fun st => { st with position := st.position ++
        [{ r with aircraft_id := newAircraftID, indicated_airspeed := none }] }) with
    | .error e => .error e
    | .ok tx1 => importPositionLoop o newAircraftID tx1 rest

/-- Row loop of `importAttitudeData` (part_005:525-576). -/
def importAttitudeLoop (o : Oracle) (newAircraftID : Nat) :
    Tx → List AttitudeRow → Except String Tx
  | tx, [] => .ok tx
  | tx, r :: rest =>
    match txWrite o tx (fun st => { st with attitude := st.attitude ++
        [{ r with aircraft_id := newAircraftID }] }) with
    | .error e => .error e
    | .ok tx1 => importAttitudeLoop o newAircraftID tx1 rest

/-- Row loop of `importEngineData` (part_005:579-669). -/
def importEngineLoop (o : Oracle) (newAircraftID : Nat) :
    Tx → List EngineRow → Except String Tx
  | tx, [] => .ok tx
  | tx, r :: rest =>
    match txWrite o tx (fun st => { st with engine := st.engine ++
        [{ r with aircraft_id := newAircraftID }] }) with
    | .error e => .error e
    | .ok tx1 => importEngineLoop o newAircraftID tx1 rest

/-- Aircraft loop of `importAircraftForFlight` (part_005:399-468): insert
the aircraft under the new flight id, then its three telemetry series. -/
def importAircraftLoop (o : Oracle) (src : SourceDB) (newFlightID : Nat) :
    Tx → List AircraftRow → Except String Tx
  | tx, [] => .ok tx
  | tx, ac :: rest =>
    let newAircraftID := tx.store.nextAircraftId
    match txWrite o tx (fun st => { st with
        nextAircraftId := st.nextAircraftId + 1
        aircraft := st.aircraft ++
          [{ ac with id := newAircraftID, flight_id := newFlightID }] }) with
    | .error e => .error e
    | .ok tx1 =>
      match importPositionLoop o newAircraftID tx1
          (src.position.filter (fun r => r.aircraft_id == ac.id)) with
      | .error e => .error e
      | .ok tx2 =>
        match importAttitudeLoop o newAircraftID tx2
            (src.attitude.filter (fun r => r.aircraft_id == ac.id)) with
        | .error e => .error e
        | .ok tx3 =>
          match importEngineLoop o newAircraftID tx3
              (src.engine.filter (fun r => r.aircraft_id == ac.id)) with
          | .error e => .error e
          | .ok tx4 => importAircraftLoop o src newFlightID tx4 rest

/-- The `for _, flight := range flights` loop of
`ImportFlightsFromDatabase` (part_005:276-280). -/
def importAllAircraftLoop (o : Oracle) (src : SourceDB) :
    Tx → List FlightSummary → Except String Tx
  | tx, [] => .ok tx
  | tx, fl :: rest =>
    match importAircraftLoop o src fl.id tx
        (src.aircraft.filter (fun a => a.flight_id == fl.sourceID)) with
    | .error e => .error e
    | .ok tx1 => importAllAircraftLoop o src tx1 rest

/-- `ImportFlightsFromDatabase` (part_005:249-289): schema check, one
transaction for all flights/aircraft/telemetry, commit only at the end.
Every error path returns before `tx.Commit()`, and the deferred
`tx.Rollback()` leaves the canonical store as it was, so the error cases
return the pre-state. -/
def ImportFlightsFromDatabase (o : Oracle) (s : Store) (src : SourceDB) :
    Except String (List FlightSummary) × Store :=
  match verifyDatabaseSchema src with
  | some e => (.error ("invalid source database: " ++ e), s)
  | none =>
    match importFlightsLoop o { store := s, writes := 0 } [] src.flights with
    | .error e => (.error ("failed to import flights: " ++ e), s)
    | .ok (tx1, flights) =>
      match importAllAircraftLoop o src tx1 flights with
      | .error e => (.error ("failed to import aircraft: " ++ e), s)
      | .ok tx2 => (.ok flights, tx2.store)

/-! ## Specification-side descriptions of the copy loops

The following functions describe, from the pre-state, exactly which rows the
aircraft loop of `copyFlightCore` appends; they are related to the loop by
`copyAircraftLoop_ok` below. -/

/-- The aircraft rows appended by the loop: the i-th pending aircraft
re-keyed to id `base + i` under the new flight. -/
def rekeyAircraft (nf : Nat) : Nat → List AircraftRow → List AircraftRow
  | _, [] => []
  | base, a :: rest => { a with id := base, flight_id := nf } :: rekeyAircraft nf (base + 1) rest

/-- The telemetry rows appended by the loop for one series, generically in
the row type: `setId b` re-keys a row to aircraft id `b` and `rowsFor ac`
is the block of rows copied for source aircraft `ac`. -/
def seriesBlocks {α : Type} (setId : Nat → α → α) (rowsFor : AircraftRow → List α) :
    Nat → List AircraftRow → List α
  | _, [] => []
  | base, ac :: rest => (rowsFor ac).map (setId base) ++ seriesBlocks setId rowsFor (base + 1) rest

/-- Re-keying of one position row. -/
def posSetId (b : Nat) (r : PositionRow) : PositionRow := { r with aircraft_id := b }

/-- Re-keying of one attitude row. -/
def attSetId (b : Nat) (r : AttitudeRow) : AttitudeRow := { r with aircraft_id := b }

/-- Re-keying of one engine row. -/
def engSetId (b : Nat) (r : EngineRow) : EngineRow := { r with aircraft_id := b }

/-- The position rows the copy functions produce for one source aircraft
(pre-re-keying), read from the pre-state. -/
def posRowsFor (fns : CopyFns) (s : Store) (ac : AircraftRow) : List PositionRow :=
  (fns.copyPos (positionOf s ac.id)).toOption.getD []

/-- Attitude counterpart of `posRowsFor`. -/
def attRowsFor (fns : CopyFns) (s : Store) (ac : AircraftRow) : List AttitudeRow :=
  (fns.copyAtt (attitudeOf s ac.id)).toOption.getD []

/-- Engine counterpart of `posRowsFor`. -/
def engRowsFor (fns : CopyFns) (s : Store) (ac : AircraftRow) : List EngineRow :=
  (fns.copyEng (engineOf s ac.id)).toOption.getD []

/-- The marker rows appended by `insertMarkerRows`, with ids from `base`. -/
def markerRowsFrom (nf : Nat) : Nat → List MarkerInsert → List MarkerRow
  | _, [] => []
  | base, ins :: rest =>
    { id := base, flight_id := nf, time_seconds := ins.time_seconds,
      label := ins.label, mtype := ins.mtype } :: markerRowsFrom nf (base + 1) rest

/-- The `.ok` payload of `trimPosCopy` on a nonempty series, named for use
in theorem statements: rows inside the window anchored at this series' own
minimum timestamp, re-based by the same anchor. -/
def trimWindowP (startTime endTime : ℚ) (rows : List PositionRow) : List PositionRow :=
  (rows.filter (fun r =>
      minIntList (rows.map (fun x => x.timestamp)) + goInt64 (startTime * 1000) ≤ r.timestamp ∧
      r.timestamp ≤ minIntList (rows.map (fun x => x.timestamp)) + goInt64 (endTime * 1000))).map
    (fun r => { r with timestamp := minIntList (rows.map (fun x => x.timestamp)) +
      (r.timestamp - (minIntList (rows.map (fun x => x.timestamp)) + goInt64 (startTime * 1000))) })

/-- Attitude counterpart of `trimWindowP`, anchored at the attitude series'
own minimum. -/
def trimWindowA (startTime endTime : ℚ) (rows : List AttitudeRow) : List AttitudeRow :=
  (rows.filter (fun r =>
      minIntList (rows.map (fun x => x.timestamp)) + goInt64 (startTime * 1000) ≤ r.timestamp ∧
      r.timestamp ≤ minIntList (rows.map (fun x => x.timestamp)) + goInt64 (endTime * 1000))).map
    (fun r => { r with timestamp := minIntList (rows.map (fun x => x.timestamp)) +
      (r.timestamp - (minIntList (rows.map (fun x => x.timestamp)) + goInt64 (startTime * 1000))) })

/-- Engine counterpart of `trimWindowP`, anchored at the engine series' own
minimum. -/
def trimWindowE (startTime endTime : ℚ) (rows : List EngineRow) : List EngineRow :=
  (rows.filter (fun r =>
      minIntList (rows.map (fun x => x.timestamp)) + goInt64 (startTime * 1000) ≤ r.timestamp ∧
      r.timestamp ≤ minIntList (rows.map (fun x => x.timestamp)) + goInt64 (endTime * 1000))).map
    (fun r => { r with timestamp := minIntList (rows.map (fun x => x.timestamp)) +
      (r.timestamp - (minIntList (rows.map (fun x => x.timestamp)) + goInt64 (startTime * 1000))) })

/-- A position series expressed in its own frame: each timestamp minus the
series' minimum timestamp. -/
def ownFrameTimestamps (rows : List PositionRow) : List Int :=
  (rows.map (fun r => r.timestamp)).map
    (fun v => v - minIntList (rows.map (fun r => r.timestamp)))

/-- Mid-transaction shape of the store while the aircraft loop runs: only
rows keyed by fresh aircraft ids (at or above the pre-state counter) have
been appended, and no other table changed.  Relates the working store to
the pre-state it was copied from. -/
def ExtendsFrom (s st : Store) : Prop :=
  s.nextAircraftId ≤ st.nextAircraftId ∧
  (∃ ne, st.aircraft = s.aircraft ++ ne ∧ ∀ a ∈ ne, s.nextAircraftId ≤ a.id) ∧
  (∃ pe, st.position = s.position ++ pe ∧ ∀ r ∈ pe, s.nextAircraftId ≤ r.aircraft_id) ∧
  (∃ ae, st.attitude = s.attitude ++ ae ∧ ∀ r ∈ ae, s.nextAircraftId ≤ r.aircraft_id) ∧
  (∃ ee, st.engine = s.engine ++ ee ∧ ∀ r ∈ ee, s.nextAircraftId ≤ r.aircraft_id)

/-! ## Concrete fixtures used by witnesses and counterexamples -/

/-- A flight row with the given id and all data columns defaulted. -/
def mkFlightRow (id : Nat) : FlightRow :=
  { id := id, title := none, flight_number := none, start_zulu_sim_time := "",
    end_zulu_sim_time := "", description := none, user_aircraft_seq_nr := none,
    surface_type := none, surface_condition := none, on_any_runway := none,
    on_parking_spot := none, ground_altitude := none, ambient_temperature := none,
    total_air_temperature := none, wind_speed := none, wind_direction := none,
    visibility := none, sea_level_pressure := none, pitot_icing := none,
    structural_icing := none, precipitation_state := none, in_clouds := none,
    start_local_sim_time := "", end_local_sim_time := "" }

/-- An aircraft row with the given id and flight, other columns defaulted. -/
def mkAircraftRow (id flight_id : Nat) : AircraftRow :=
  { id := id, flight_id := flight_id, seq_nr := none, aircraftType := "C172",
    time_offset := none, tail_number := none, airline := none,
    initial_airspeed := none, altitude_above_ground := none, start_on_ground := none }

/-- A position row with the given key, other columns defaulted. -/
def mkPositionRow (aircraft_id : Nat) (timestamp : Int) : PositionRow :=
  { aircraft_id := aircraft_id, timestamp := timestamp, latitude := none,
    longitude := none, altitude := none, indicated_altitude := none,
    calibrated_indicated_altitude := none, pressure_altitude := none,
    indicated_airspeed := none }

/-- An attitude row with the given key, other columns defaulted. -/
def mkAttitudeRow (aircraft_id : Nat) (timestamp : Int) : AttitudeRow :=
  { aircraft_id := aircraft_id, timestamp := timestamp, pitch := none,
    bank := none, true_heading := none, velocity_x := none, velocity_y := none,
    velocity_z := none, on_ground := none }

/-- An engine row with the given key, other columns defaulted. -/
def mkEngineRow (aircraft_id : Nat) (timestamp : Int) : EngineRow :=
  { aircraft_id := aircraft_id, timestamp := timestamp,
    throttle_lever_position1 := none, throttle_lever_position2 := none,
    throttle_lever_position3 := none, throttle_lever_position4 := none,
    propeller_lever_position1 := none, propeller_lever_position2 := none,
    propeller_lever_position3 := none, propeller_lever_position4 := none,
    mixture_lever_position1 := none, mixture_lever_position2 := none,
    mixture_lever_position3 := none, mixture_lever_position4 := none,
    cowl_flap_position1 := none, cowl_flap_position2 := none,
    cowl_flap_position3 := none, cowl_flap_position4 := none,
    electrical_master_battery1 := none, electrical_master_battery2 := none,
    electrical_master_battery3 := none, electrical_master_battery4 := none,
    general_engine_starter1 := none, general_engine_starter2 := none,
    general_engine_starter3 := none, general_engine_starter4 := none,
    general_engine_combustion1 := none, general_engine_combustion2 := none,
    general_engine_combustion3 := none, general_engine_combustion4 := none }

/-- The empty canonical store right after schema creation. -/
def emptyStore : Store :=
  { nextFlightId := 1, nextAircraftId := 1, nextMarkerId := 1, flights := [],
    aircraft := [], position := [], attitude := [], engine := [], markers := [],
    extraRows := [] }

/-- A position point with the given altitude and all other fields zero. -/
def mkAltPoint (alt : ℚ) : PositionPoint :=
  { timestamp := 0, timestampSeconds := 0, altitude := alt, latitude := 0,
    longitude := 0, indicatedAltitude := 0, pressureAltitude := 0, airspeed := 0 }

/-- Store holding one `trim_start` marker on flight 1: input of the C7
counterexample. -/
def trimMarkerStore : Store :=
  { emptyStore with
    nextFlightId := 2
    nextMarkerId := 2
    flights := [mkFlightRow 1]
    markers := [{ id := 1, flight_id := 1, time_seconds := 2, label := "start",
                  mtype := "trim_start" }] }

/-- Store with one flight, no markers: input of the C7 witness. -/
def oneFlightStore : Store :=
  { emptyStore with
    nextFlightId := 2
    flights := [mkFlightRow 1] }

/-- A populated store: flight 1 with one aircraft (id 1), telemetry at
offsets 0s, 15s, 20s, 50s, 100s, one regular marker and one `trim_start`
marker.  Used by the derivation-engine witnesses. -/
def demoStore : Store :=
  { nextFlightId := 2, nextAircraftId := 2, nextMarkerId := 3,
    flights := [{ mkFlightRow 1 with title := some "Original" }],
    aircraft := [mkAircraftRow 1 1],
    position := [mkPositionRow 1 5000, mkPositionRow 1 20000, mkPositionRow 1 25000,
                 mkPositionRow 1 55000, mkPositionRow 1 105000],
    attitude := [mkAttitudeRow 1 6000, mkAttitudeRow 1 21000],
    engine := [mkEngineRow 1 7000, mkEngineRow 1 22000],
    markers := [{ id := 1, flight_id := 1, time_seconds := 12, label := "note",
                  mtype := "regular" },
                { id := 2, flight_id := 1, time_seconds := 15, label := "ts",
                  mtype := "trim_start" }],
    extraRows := [] }

/-- Store with flight 1 owning aircraft 1 with telemetry, markers and extra
rows: input of the C6 witness.  Also holds a second flight that must
survive. -/
def deleteDemoStore : Store :=
  { nextFlightId := 3, nextAircraftId := 3, nextMarkerId := 2,
    flights := [mkFlightRow 1, mkFlightRow 2],
    aircraft := [mkAircraftRow 1 1, mkAircraftRow 2 2],
    position := [mkPositionRow 1 0, mkPositionRow 2 0],
    attitude := [mkAttitudeRow 1 0],
    engine := [mkEngineRow 1 0],
    markers := [{ id := 1, flight_id := 1, time_seconds := 3, label := "m",
                  mtype := "regular" }],
    extraRows := [{ table_tag := .waypoint, aircraft_id := 1 }] }

/-- Foreign source with one flight (source id 7) owning four aircraft, each
with one position row: input of the C1 witness. -/
def demoSource : SourceDB :=
  { tables := ["flight", "aircraft", "position", "attitude", "engine"],
    flights := [mkFlightRow 7],
    aircraft := [mkAircraftRow 1 7, mkAircraftRow 2 7, mkAircraftRow 3 7,
                 mkAircraftRow 4 7],
    position := [mkPositionRow 1 100, mkPositionRow 2 100, mkPositionRow 3 100,
                 mkPositionRow 4 100],
    attitude := [], engine := [] }

/-- Oracle failing the 9th canonical write: flight, then (aircraft, its
position row) four times, so write index 8 is the 4th aircraft's position
(telemetry) insert. -/
def demoOracle : Oracle := fun n => n == 8

/-- Oracle under which every write succeeds. -/
def okOracle : Oracle := fun _ => false

/-! # Theorems -/

/-- C1: for every foreign-database import, all rows are written inside one
transaction against the canonical store, and if any row-level write fails
the whole transaction is aborted: afterwards the canonical store contains
zero new flights and zero new aircraft (full rollback, no partial
import). -/
theorem import_atomicity (o : Oracle) (s : Store) (src : SourceDB) (e : String)
    (h : (ImportFlightsFromDatabase o s src).1 = .error e) :
    (ImportFlightsFromDatabase o s src).2 = s ∧
    ((ImportFlightsFromDatabase o s src).2).flights.length = s.flights.length ∧
    ((ImportFlightsFromDatabase o s src).2).aircraft.length = s.aircraft.length := by
  unfold ImportFlightsFromDatabase at h ⊢
  cases hv : verifyDatabaseSchema src with
  | some msg => simp [hv]
  | none =>
    cases hf : importFlightsLoop o { store := s, writes := 0 } [] src.flights with
    | error e1 => simp [hv, hf]
    | ok p =>
      obtain ⟨tx1, fls⟩ := p
      cases ha : importAllAircraftLoop o src tx1 fls with
      | error e2 => simp [hv, hf, ha]
      | ok tx2 => simp [hv, hf, ha] at h

/-- C1 witness: importing a source whose 4th aircraft's position-table write
is forced to fail leaves the canonical store with zero new flights and zero
new aircraft. -/
theorem import_atomicity_witness :
    (ImportFlightsFromDatabase demoOracle emptyStore demoSource).1 =
      .error "failed to import aircraft: write failed" ∧
    ((ImportFlightsFromDatabase demoOracle emptyStore demoSource).2 = emptyStore ∧
     ((ImportFlightsFromDatabase demoOracle emptyStore demoSource).2).flights.length =
       emptyStore.flights.length ∧
     ((ImportFlightsFromDatabase demoOracle emptyStore demoSource).2).aircraft.length =
       emptyStore.aircraft.length) :=
  ⟨by rfl, import_atomicity demoOracle emptyStore demoSource _ (by rfl)⟩

/-- C4: every trim request with `endSeconds ≤ startSeconds`, or with a span
under 1 second, or whose new title equals an existing flight title
(case-sensitively), is rejected as a client error (HTTP 400 or 409) before
any transaction begins, leaving the canonical store unchanged. -/
theorem trim_request_validation (s : Store) (fid : Nat) (title : String) (st en : ℚ)
    (h : en ≤ st ∨ en - st < 1 ∨ flightTitleExists s title = true) :
    (handleTrimFlight s fid title st en).2 = s ∧
    ∃ msg, (handleTrimFlight s fid title st en).1 = .badRequest msg ∨
           (handleTrimFlight s fid title st en).1 = .conflict msg := by
  unfold handleTrimFlight
  split_ifs with h1 h2 h3 h4
  · exact ⟨rfl, _, .inl rfl⟩
  · exact ⟨rfl, _, .inl rfl⟩
  · exact ⟨rfl, _, .inl rfl⟩
  · exact ⟨rfl, _, .inr rfl⟩
  · exfalso
    rcases h with h | h | h
    · exact h2 h
    · exact h3 h
    · exact h4 h

/-- C4 witness: `trim(1, "T2", 5.0, 5.5)` (0.5 s span) is rejected with the
store untouched. -/
theorem trim_request_validation_witness :
    ((5.5 : ℚ) ≤ 5 ∨ (5.5 : ℚ) - 5 < 1 ∨ flightTitleExists emptyStore "T2" = true) ∧
    ((handleTrimFlight emptyStore 1 "T2" 5 5.5).2 = emptyStore ∧
     ∃ msg, (handleTrimFlight emptyStore 1 "T2" 5 5.5).1 = .badRequest msg ∨
            (handleTrimFlight emptyStore 1 "T2" 5 5.5).1 = .conflict msg) :=
  ⟨by right; left; norm_num,
   trim_request_validation emptyStore 1 "T2" 5 5.5 (by right; left; norm_num)⟩

/-- C8 counterexample: the claim says a row is recognized exactly when at
least 3 of the keywords appear among its column names; but on a row whose
single column name contains all four keywords, 4 keywords appear yet the
code counts only 1 matching column and does not recognize the row. -/
theorem header_detection_counterexample :
    3 ≤ specKeywordsPresentCount ["time altitude latitude longitude"] ∧
    containsFlightDataHeaders ["time altitude latitude longitude"] = false := by
  constructor <;> decide

/-- C8 amended: a row is recognized exactly when at least 3 of its COLUMN
NAMES contain (case-insensitive substring) at least one of the keywords
Time, Altitude, Latitude, Longitude; in particular the row
`Time, Altitude (feet), Latitude (degrees), Longitude (degrees), Custom`
is recognized even though column names carry parenthetical units. -/
theorem header_detection_amended :
    (∀ record : List String,
      containsFlightDataHeaders record = true ↔
        3 ≤ (record.filter (fun h =>
              decide (∃ e ∈ expectedHeaders, lowerList e <:+: lowerList h))).length) ∧
    containsFlightDataHeaders
      ["Time", "Altitude (feet)", "Latitude (degrees)", "Longitude (degrees)", "Custom"]
      = true := by
  constructor
  · intro record
    unfold containsFlightDataHeaders
    rw [decide_eq_true_eq]
    rw [show (fun header => expectedHeaders.any
          (fun expected => strContains (lowerList header) (lowerList expected))) =
        (fun h => decide (∃ e ∈ expectedHeaders, lowerList e <:+: lowerList h)) from ?_]
    · rw [List.countP_eq_length_filter]
    · funext h
      simp only [strContains]
      by_cases hex : ∃ e ∈ expectedHeaders, lowerList e <:+: lowerList h
      · have h1 : (expectedHeaders.any fun expected =>
            decide (lowerList expected <:+: lowerList h)) = true := by
          rw [List.any_eq_true]
          obtain ⟨e, he, hinf⟩ := hex
          exact ⟨e, he, decide_eq_true hinf⟩
        rw [h1, decide_eq_true hex]
      · have h1 : (expectedHeaders.any fun expected =>
            decide (lowerList expected <:+: lowerList h)) = false := by
          rw [List.any_eq_false]
          intro e he hd
          exact hex ⟨e, he, of_decide_eq_true hd⟩
        rw [h1, decide_eq_false hex]
  · decide

/-- C9: per-aircraft statistics exclude non-positive airspeed values and
exactly-zero altitude values, keeping strictly negative altitudes; for the
altitude series [0, 100, -50] the statistics are computed only over
[100, -50] and the reported count is 2. -/
theorem statistics_exclusion :
    (∀ pts : List PositionPoint, ∀ v : ℚ,
      v ∈ extractAirspeeds pts ↔ v ∈ pts.map (fun p => p.airspeed) ∧ 0 < v) ∧
    (∀ series : List ℚ, ∀ v : ℚ,
      v ∈ extractNonzero series ↔ v ∈ series ∧ v ≠ 0) ∧
    (∀ series : List ℚ, ∀ v : ℚ, v ∈ series → v < 0 → v ∈ extractNonzero series) ∧
    ((CalculateFlightStatistics
        [("A", [mkAltPoint 0, mkAltPoint 100, mkAltPoint (-50)])]).map
      (fun e => e.2.altitudeStats)
      = [calculateDataStatistics [(100 : ℚ), (-50 : ℚ)]] ∧
     (calculateDataStatistics [(100 : ℚ), (-50 : ℚ)]).map (fun st => st.count)
      = some 2) := by
  refine ⟨?_, ?_, ?_, by rfl, by rfl⟩
  · intro pts v
    simp [extractAirspeeds, List.mem_filter]
  · intro series v
    simp [extractNonzero, List.mem_filter]
  · intro series v hv hneg
    simp only [extractNonzero, List.mem_filter]
    exact ⟨hv, by simp; exact ne_of_lt hneg⟩

/-! ## DeleteFlight lemmas and C6 -/

theorem foldl_delete_components (ids : List Nat) (s : Store) :
    (ids.foldl deleteAircraftData s).flights = s.flights ∧
    (ids.foldl deleteAircraftData s).aircraft = s.aircraft ∧
    (ids.foldl deleteAircraftData s).markers = s.markers := by
  induction ids generalizing s with
  | nil => exact ⟨rfl, rfl, rfl⟩
  | cons a rest ih =>
    simpa [List.foldl_cons, deleteAircraftData] using ih (deleteAircraftData s a)

theorem foldl_delete_removes (ids : List Nat) (s : Store) :
    (∀ r ∈ (ids.foldl deleteAircraftData s).position, r.aircraft_id ∉ ids) ∧
    (∀ r ∈ (ids.foldl deleteAircraftData s).attitude, r.aircraft_id ∉ ids) ∧
    (∀ r ∈ (ids.foldl deleteAircraftData s).engine, r.aircraft_id ∉ ids) ∧
    (∀ r ∈ (ids.foldl deleteAircraftData s).extraRows, r.aircraft_id ∉ ids) := by
  induction ids generalizing s with
  | nil => simp
  | cons a rest ih =>
    have hsub : ∀ (t : Store),
        (rest.foldl deleteAircraftData t).position ⊆ t.position ∧
        (rest.foldl deleteAircraftData t).attitude ⊆ t.attitude ∧
        (rest.foldl deleteAircraftData t).engine ⊆ t.engine ∧
        (rest.foldl deleteAircraftData t).extraRows ⊆ t.extraRows := by
      clear ih
      induction rest with
      | nil => intro t; exact ⟨fun _ h => h, fun _ h => h, fun _ h => h, fun _ h => h⟩
      | cons b rb ihb =>
        intro t
        refine ⟨fun r hr => ?_, fun r hr => ?_, fun r hr => ?_, fun r hr => ?_⟩
        · exact List.mem_of_mem_filter ((ihb (deleteAircraftData t b)).1 hr)
        · exact List.mem_of_mem_filter ((ihb (deleteAircraftData t b)).2.1 hr)
        · exact List.mem_of_mem_filter ((ihb (deleteAircraftData t b)).2.2.1 hr)
        · exact List.mem_of_mem_filter ((ihb (deleteAircraftData t b)).2.2.2 hr)
    obtain ⟨ih1, ih2, ih3, ih4⟩ := ih (deleteAircraftData s a)
    obtain ⟨hs1, hs2, hs3, hs4⟩ := hsub (deleteAircraftData s a)
    simp only [List.foldl_cons]
    refine ⟨fun r hr => ?_, fun r hr => ?_, fun r hr => ?_, fun r hr => ?_⟩ <;>
      intro hmem <;> rw [List.mem_cons] at hmem
    · rcases hmem with h | h
      · have := hs1 hr
        simp only [deleteAircraftData, List.mem_filter] at this
        exact absurd (by simpa using this.2) (by simp [h])
      · exact ih1 r hr h
    · rcases hmem with h | h
      · have := hs2 hr
        simp only [deleteAircraftData, List.mem_filter] at this
        exact absurd (by simpa using this.2) (by simp [h])
      · exact ih2 r hr h
    · rcases hmem with h | h
      · have := hs3 hr
        simp only [deleteAircraftData, List.mem_filter] at this
        exact absurd (by simpa using this.2) (by simp [h])
      · exact ih3 r hr h
    · rcases hmem with h | h
      · have := hs4 hr
        simp only [deleteAircraftData, List.mem_filter] at this
        exact absurd (by simpa using this.2) (by simp [h])
      · exact ih4 r hr h

/-- C6 counterexample: 0 is a flight id carried by no flight (the store
below has flights 1 and 2 only), yet `DeleteFlight` reports the
invalid-id error, not the not-found error the claim requires for every
nonexistent id. -/
theorem delete_notfound_counterexample :
    (∀ f ∈ deleteDemoStore.flights, (f.id : Int) ≠ 0) ∧
    (DeleteFlight deleteDemoStore 0).1 = some .invalidID ∧
    some DeleteError.invalidID ≠ some DeleteError.notFound := by
  refine ⟨by decide, by rfl, by decide⟩

/-- C6 amended: deleting an existing flight removes all of its aircraft
rows and every telemetry, extra-table and marker row referencing those
aircraft or the flight (children deleted before parents); deleting a
nonexistent POSITIVE flight id returns the not-found error with the store
unchanged; a nonpositive id is rejected up front with the invalid-id error,
also leaving the store unchanged. -/
theorem delete_flight_amended (s : Store) (flightID : Int) :
    (flightID ≤ 0 → DeleteFlight s flightID = (some .invalidID, s)) ∧
    (0 < flightID → (∀ f ∈ s.flights, (f.id : Int) ≠ flightID) →
      DeleteFlight s flightID = (some .notFound, s)) ∧
    (0 < flightID → (∃ f ∈ s.flights, (f.id : Int) = flightID) →
      (DeleteFlight s flightID).1 = none ∧
      ((∀ f ∈ (DeleteFlight s flightID).2.flights, (f.id : Int) ≠ flightID) ∧
       aircraftOf (DeleteFlight s flightID).2 flightID.toNat = [] ∧
       (∀ r ∈ (DeleteFlight s flightID).2.position,
         r.aircraft_id ∉ (aircraftOf s flightID.toNat).map (fun a => a.id)) ∧
       (∀ r ∈ (DeleteFlight s flightID).2.attitude,
         r.aircraft_id ∉ (aircraftOf s flightID.toNat).map (fun a => a.id)) ∧
       (∀ r ∈ (DeleteFlight s flightID).2.engine,
         r.aircraft_id ∉ (aircraftOf s flightID.toNat).map (fun a => a.id)) ∧
       (∀ r ∈ (DeleteFlight s flightID).2.extraRows,
         r.aircraft_id ∉ (aircraftOf s flightID.toNat).map (fun a => a.id)) ∧
       markersOf (DeleteFlight s flightID).2 flightID.toNat = [])) := by
  refine ⟨fun hle => ?_, fun hpos hnone => ?_, fun hpos hex => ?_⟩
  · unfold DeleteFlight
    rw [if_pos hle]
  · unfold DeleteFlight
    rw [if_neg (by omega)]
    have hflights := (foldl_delete_components
      ((aircraftOf s flightID.toNat).map (fun a => a.id)) s).1
    have hempty : (((aircraftOf s flightID.toNat).map (fun a => a.id)).foldl
        deleteAircraftData s).flights.filter (fun f => f.id == flightID.toNat) = [] := by
      rw [hflights, List.filter_eq_nil_iff]
      intro f hf
      simp only [beq_iff_eq]
      intro hid
      exact hnone f hf (by omega)
    simp only [hempty, List.length_nil]
    rfl
  · unfold DeleteFlight
    rw [if_neg (by omega)]
    obtain ⟨f0, hf0, hf0id⟩ := hex
    have hcomp := foldl_delete_components
      ((aircraftOf s flightID.toNat).map (fun a => a.id)) s
    have hrem := foldl_delete_removes
      ((aircraftOf s flightID.toNat).map (fun a => a.id)) s
    have hne : (((aircraftOf s flightID.toNat).map (fun a => a.id)).foldl
        deleteAircraftData s).flights.filter (fun f => f.id == flightID.toNat) ≠ [] := by
      rw [hcomp.1]
      intro hnil
      have : f0 ∈ s.flights.filter (fun f => f.id == flightID.toNat) :=
        List.mem_filter.mpr ⟨hf0, by simp; omega⟩
      rw [hnil] at this
      exact absurd this (List.not_mem_nil f0)
    have hlen : ((((aircraftOf s flightID.toNat).map (fun a => a.id)).foldl
        deleteAircraftData s).flights.filter (fun f => f.id == flightID.toNat)).length ≠ 0 := by
      intro h0
      exact hne (List.eq_nil_of_length_eq_zero h0)
    simp only [if_neg hlen]
    refine ⟨trivial, fun f hf => ?_, ?_, fun r hr => ?_, fun r hr => ?_, fun r hr => ?_,
      fun r hr => ?_, ?_⟩
    · have hmem := List.of_mem_filter hf
      simp only [decide_eq_true_eq, beq_iff_eq] at hmem
      omega
    · rw [aircraftOf, List.filter_eq_nil_iff]
      intro a ha
      have ha2 := List.of_mem_filter ha
      simp only [decide_eq_true_eq, beq_iff_eq] at ha2 ⊢
      exact ha2
    · exact hrem.1 r hr
    · exact hrem.2.1 r hr
    · exact hrem.2.2.1 r hr
    · exact hrem.2.2.2 r hr
    · rw [markersOf, List.filter_eq_nil_iff]
      intro m hm
      have hm2 := List.of_mem_filter hm
      simp only [decide_eq_true_eq, beq_iff_eq] at hm2 ⊢
      exact hm2

/-- C6 witness: deleting existing flight 1 of a populated store removes its
aircraft and every row referencing them, plus its markers and its flight
row. -/
theorem delete_flight_witness :
    ((0 : Int) < 1 ∧ (∃ f ∈ deleteDemoStore.flights, (f.id : Int) = 1)) ∧
    ((DeleteFlight deleteDemoStore 1).1 = none ∧
     ((∀ f ∈ (DeleteFlight deleteDemoStore 1).2.flights, (f.id : Int) ≠ 1) ∧
      aircraftOf (DeleteFlight deleteDemoStore 1).2 (1 : Int).toNat = [] ∧
      (∀ r ∈ (DeleteFlight deleteDemoStore 1).2.position,
        r.aircraft_id ∉ (aircraftOf deleteDemoStore (1 : Int).toNat).map (fun a => a.id)) ∧
      (∀ r ∈ (DeleteFlight deleteDemoStore 1).2.attitude,
        r.aircraft_id ∉ (aircraftOf deleteDemoStore (1 : Int).toNat).map (fun a => a.id)) ∧
      (∀ r ∈ (DeleteFlight deleteDemoStore 1).2.engine,
        r.aircraft_id ∉ (aircraftOf deleteDemoStore (1 : Int).toNat).map (fun a => a.id)) ∧
      (∀ r ∈ (DeleteFlight deleteDemoStore 1).2.extraRows,
        r.aircraft_id ∉ (aircraftOf deleteDemoStore (1 : Int).toNat).map (fun a => a.id)) ∧
      markersOf (DeleteFlight deleteDemoStore 1).2 (1 : Int).toNat = [])) :=
  ⟨⟨by decide, by decide⟩,
   (delete_flight_amended deleteDemoStore 1).2.2 (by decide) (by decide)⟩

/-! ## Trim-marker invariant lemmas and C7 -/

theorem trimTypeCount_update (s : Store) (exid : Nat) (time : ℚ) (label : String)
    (f : Nat) (ty : String) :
    trimTypeCount { s with markers := s.markers.map (fun m =>
        if m.id == exid then { m with time_seconds := time, label := label } else m) }
      f ty = trimTypeCount s f ty := by
  unfold trimTypeCount
  rw [← List.countP_eq_length_filter, ← List.countP_eq_length_filter]
  show List.countP _ (s.markers.map _) = _
  rw [List.countP_map]
  apply List.countP_congr
  intro m _
  dsimp only [Function.comp]
  split <;> exact Iff.rfl

theorem trimTypeCount_insert (s : Store) (nm : MarkerRow) (nmk : Nat) (f : Nat) (ty : String) :
    trimTypeCount { s with nextMarkerId := nmk, markers := s.markers ++ [nm] } f ty =
      trimTypeCount s f ty + (if nm.flight_id == f && nm.mtype == ty then 1 else 0) := by
  unfold trimTypeCount
  show (List.filter _ (s.markers ++ [nm])).length = _
  rw [List.filter_append, List.length_append]
  congr 1
  cases hp : (nm.flight_id == f && nm.mtype == ty) with
  | true => simp [List.filter_cons, hp]
  | false => simp [List.filter_cons, hp]

/-- C7 counterexample: the invariant "at most one trim_start and one
trim_end per flight" is NOT preserved by every marker-creating operation:
`createMarker` (the generic POST /markers path) accepts an explicit
`trim_start` type and plainly inserts, producing a second `trim_start`
marker on flight 1. -/
theorem trim_marker_counterexample :
    AtMostOneTrim trimMarkerStore ∧
    ¬ AtMostOneTrim (createMarker trimMarkerStore 1 5 "b" "trim_start").1 := by
  constructor
  · intro fid
    constructor <;>
      exact le_trans (List.length_filter_le _ _) (by rfl)
  · intro h
    have h1 := (h 1).1
    have h2 : trimTypeCount (createMarker trimMarkerStore 1 5 "b" "trim_start").1
        1 "trim_start" = 2 := by rfl
    omega

/-- C7 amended: the upsert-by-type path `createOrUpdateTrimMarker` (the one
the trim-marker endpoint uses) does preserve "at most one trim_start and at
most one trim_end marker per flight"; the generic `createMarker` does not
(see the counterexample), so the bound holds only for stores whose trim
markers were managed through the upsert. -/
theorem trim_marker_upsert_preserves (s : Store) (fid : Nat) (markerType : String)
    (time : ℚ) (label : String) (hinv : AtMostOneTrim s) (s1 : Store) (m : MarkerRow)
    (h : createOrUpdateTrimMarker s fid markerType time label = .ok (s1, m)) :
    AtMostOneTrim s1 := by
  unfold createOrUpdateTrimMarker at h
  by_cases hty : markerType ≠ "trim_start" ∧ markerType ≠ "trim_end"
  · rw [if_pos hty] at h
    exact absurd h (by simp)
  · rw [if_neg hty] at h
    push_neg at hty
    cases hfind : getTrimMarker s fid markerType with
    | some ex =>
      rw [hfind] at h
      cases h
      intro f
      exact ⟨by rw [trimTypeCount_update]; exact (hinv f).1,
             by rw [trimTypeCount_update]; exact (hinv f).2⟩
    | none =>
      rw [hfind] at h
      have hne : markerType ≠ "" := by
        by_cases hcase : markerType = "trim_start"
        · rw [hcase]; intro hc; exact absurd hc (by decide)
        · rw [hty hcase]; intro hc; exact absurd hc (by decide)
      have hzero : trimTypeCount s fid markerType = 0 := by
        unfold trimTypeCount
        rw [← List.countP_eq_length_filter, List.countP_eq_zero]
        intro mm hmm
        unfold getTrimMarker at hfind
        rw [List.find?_eq_none] at hfind
        exact fun hp => hfind mm hmm hp
      unfold createMarker at h
      rw [if_neg hne] at h
      cases h
      intro f
      constructor
      · rw [trimTypeCount_insert]
        show trimTypeCount s f "trim_start" +
            (if (fid == f && markerType == "trim_start") = true then 1 else 0) ≤ 1
        by_cases hb : (fid == f && markerType == "trim_start") = true
        · obtain ⟨h1, h2⟩ : fid = f ∧ markerType = "trim_start" := by simpa using hb
          subst h1
          subst h2
          rw [if_pos hb, hzero]
        · rw [if_neg hb]
          have := (hinv f).1
          omega
      · rw [trimTypeCount_insert]
        show trimTypeCount s f "trim_end" +
            (if (fid == f && markerType == "trim_end") = true then 1 else 0) ≤ 1
        by_cases hb : (fid == f && markerType == "trim_end") = true
        · obtain ⟨h1, h2⟩ : fid = f ∧ markerType = "trim_end" := by simpa using hb
          subst h1
          subst h2
          rw [if_pos hb, hzero]
        · rw [if_neg hb]
          have := (hinv f).2
          omega

/-- C7 witness: starting from a store with no markers, the trim-marker
upsert creates one `trim_start` marker and the bound still holds. -/
theorem trim_marker_upsert_witness :
    AtMostOneTrim oneFlightStore ∧
    (∃ s1 m, createOrUpdateTrimMarker oneFlightStore 1 "trim_start" 3 "s" = .ok (s1, m) ∧
      AtMostOneTrim s1) := by
  have hinv : AtMostOneTrim oneFlightStore := by
    intro fid
    constructor <;> simp [trimTypeCount, oneFlightStore, emptyStore]
  refine ⟨hinv,
    { oneFlightStore with
      nextMarkerId := 2
      markers := [{ id := 1, flight_id := 1, time_seconds := 3, label := "s",
                    mtype := "trim_start" }] },
    { id := 1, flight_id := 1, time_seconds := 3, label := "s", mtype := "trim_start" },
    by rfl, ?_⟩
  exact trim_marker_upsert_preserves oneFlightStore 1 "trim_start" 3 "s" hinv _ _ (by rfl)

/-! ## SQL MIN/MAX lemmas -/

theorem minIntList_le : ∀ {l : List Int}, ∀ x ∈ l, minIntList l ≤ x
  | [x'], x, hx => by
    rcases List.mem_singleton.mp hx with rfl
    exact le_refl _
  | a :: b :: t, x, hx => by
    rcases List.mem_cons.mp hx with rfl | hx2
    · exact min_le_left _ _
    · exact le_trans (min_le_right _ _) (minIntList_le x hx2)

theorem minIntList_mem : ∀ {l : List Int}, l ≠ [] → minIntList l ∈ l
  | [x], _ => List.mem_singleton.mpr rfl
  | a :: b :: t, _ => by
    show min a (minIntList (b :: t)) ∈ a :: b :: t
    rcases min_cases a (minIntList (b :: t)) with ⟨hm, _⟩ | ⟨hm, _⟩
    · rw [hm]; exact List.mem_cons_self _ _
    · rw [hm]; exact List.mem_cons_of_mem _ (minIntList_mem (by simp))

theorem le_maxIntList : ∀ {l : List Int}, ∀ x ∈ l, x ≤ maxIntList l
  | [x'], x, hx => by
    rcases List.mem_singleton.mp hx with rfl
    exact le_refl _
  | a :: b :: t, x, hx => by
    rcases List.mem_cons.mp hx with rfl | hx2
    · exact le_max_left _ _
    · exact le_trans (le_maxIntList x hx2) (le_max_right _ _)

theorem maxIntList_mem : ∀ {l : List Int}, l ≠ [] → maxIntList l ∈ l
  | [x], _ => List.mem_singleton.mpr rfl
  | a :: b :: t, _ => by
    show max a (maxIntList (b :: t)) ∈ a :: b :: t
    rcases max_cases a (maxIntList (b :: t)) with ⟨hm, _⟩ | ⟨hm, _⟩
    · rw [hm]; exact List.mem_cons_self _ _
    · rw [hm]; exact List.mem_cons_of_mem _ (maxIntList_mem (by simp))

theorem minIntList_map_sub (c : Int) :
    ∀ (l : List Int), l ≠ [] → minIntList (l.map (fun v => v - c)) = minIntList l - c
  | [x], _ => rfl
  | a :: b :: t, _ => by
    show min (a - c) (minIntList ((b :: t).map (fun v => v - c))) = min a (minIntList (b :: t)) - c
    rw [minIntList_map_sub c (b :: t) (by simp), min_sub_sub_right]

theorem maxIntList_map_sub (c : Int) :
    ∀ (l : List Int), l ≠ [] → maxIntList (l.map (fun v => v - c)) = maxIntList l - c
  | [x], _ => rfl
  | a :: b :: t, _ => by
    show max (a - c) (maxIntList ((b :: t).map (fun v => v - c))) = max a (maxIntList (b :: t)) - c
    rw [maxIntList_map_sub c (b :: t) (by simp), max_sub_sub_right]

/-! ## Re-keying lemmas -/

theorem find?_beq_id_of_nodup : ∀ {l : List AircraftRow} {a : AircraftRow},
    a ∈ l → (l.map (fun x => x.id)).Nodup →
    l.find? (fun x => x.id == a.id) = some a := by
  intro l
  induction l with
  | nil => intro a ha _; cases ha
  | cons b t ih =>
    intro a ha hnd
    rw [List.map_cons, List.nodup_cons] at hnd
    rcases List.mem_cons.mp ha with rfl | hat
    · rw [List.find?_cons_of_pos _ (by simp)]
    · have hne : (b.id == a.id) = false := by
        rw [beq_eq_false_iff_ne]
        intro hid
        exact hnd.1 (hid ▸ List.mem_map_of_mem (fun x => x.id) hat)
      rw [List.find?_cons_of_neg _ (by simp [hne]), ih hat hnd.2]

theorem rekeyAircraft_length (nf : Nat) :
    ∀ (base : Nat) (l : List AircraftRow), (rekeyAircraft nf base l).length = l.length
  | _, [] => rfl
  | base, a :: rest => by
    show (rekeyAircraft nf (base + 1) rest).length + 1 = rest.length + 1
    rw [rekeyAircraft_length nf (base + 1) rest]

theorem rekeyAircraft_mem (nf : Nat) :
    ∀ (base : Nat) (l : List AircraftRow), ∀ a ∈ rekeyAircraft nf base l,
      a.flight_id = nf ∧ base ≤ a.id ∧ a.id < base + l.length := by
  intro base l
  induction l generalizing base with
  | nil => intro a ha; cases ha
  | cons x rest ih =>
    intro a ha
    rcases List.mem_cons.mp ha with rfl | h2
    · exact ⟨rfl, le_refl _, by simp⟩
    · obtain ⟨h3, h4, h5⟩ := ih (base + 1) a h2
      exact ⟨h3, by omega, by simp only [List.length_cons]; omega⟩

theorem rekeyAircraft_get (nf : Nat) :
    ∀ (base : Nat) (l : List AircraftRow) (i : Nat) (hi : i < l.length)
      (hi2 : i < (rekeyAircraft nf base l).length),
      (rekeyAircraft nf base l).get ⟨i, hi2⟩ =
        { l.get ⟨i, hi⟩ with id := base + i, flight_id := nf } := by
  intro base l
  induction l generalizing base with
  | nil => intro i hi; cases hi
  | cons x rest ih =>
    intro i hi hi2
    cases i with
    | zero => rfl
    | succ j =>
      have hj : j < rest.length := by simpa using hi
      have hj2 : j < (rekeyAircraft nf (base + 1) rest).length := by
        rw [rekeyAircraft_length]
        exact hj
      show (rekeyAircraft nf (base + 1) rest).get ⟨j, hj2⟩ = _
      rw [ih (base + 1) j hj hj2, show base + 1 + j = base + (j + 1) from by omega]
      rfl

theorem seriesBlocks_mem {α : Type} (getId : α → Nat) (setId : Nat → α → α)
    (hcoh : ∀ b r, getId (setId b r) = b) (rowsFor : AircraftRow → List α) :
    ∀ (base : Nat) (l : List AircraftRow), ∀ r ∈ seriesBlocks setId rowsFor base l,
      base ≤ getId r ∧ getId r < base + l.length := by
  intro base l
  induction l generalizing base with
  | nil => intro r hr; cases hr
  | cons ac rest ih =>
    intro r hr
    rw [seriesBlocks, List.mem_append] at hr
    rcases hr with h1 | h2
    · obtain ⟨x, _, rfl⟩ := List.mem_map.mp h1
      rw [hcoh]
      simp
    · obtain ⟨h3, h4⟩ := ih (base + 1) r h2
      exact ⟨by omega, by simp only [List.length_cons]; omega⟩

theorem seriesBlocks_filter_eq {α : Type} (getId : α → Nat) (setId : Nat → α → α)
    (hcoh : ∀ b r, getId (setId b r) = b) (rowsFor : AircraftRow → List α) :
    ∀ (base i : Nat) (l : List AircraftRow) (hi : i < l.length),
      (seriesBlocks setId rowsFor base l).filter (fun r => getId r == base + i) =
        (rowsFor (l.get ⟨i, hi⟩)).map (setId (base + i)) := by
  intro base i l
  induction l generalizing base i with
  | nil => intro hi; cases hi
  | cons ac rest ih =>
    intro hi
    rw [seriesBlocks, List.filter_append]
    cases i with
    | zero =>
      have h1 : ((rowsFor ac).map (setId base)).filter (fun r => getId r == base + 0) =
          (rowsFor ac).map (setId base) := by
        rw [List.filter_eq_self]
        intro r hr
        obtain ⟨x, _, rfl⟩ := List.mem_map.mp hr
        simp [hcoh]
      have h2 : (seriesBlocks setId rowsFor (base + 1) rest).filter
          (fun r => getId r == base + 0) = [] := by
        rw [List.filter_eq_nil_iff]
        intro r hr
        have := (seriesBlocks_mem getId setId hcoh rowsFor (base + 1) rest r hr).1
        simp only [beq_iff_eq]
        omega
      rw [h1, h2, List.append_nil]
      rfl
    | succ j =>
      have h1 : ((rowsFor ac).map (setId base)).filter
          (fun r => getId r == base + (j + 1)) = [] := by
        rw [List.filter_eq_nil_iff]
        intro r hr
        obtain ⟨x, _, rfl⟩ := List.mem_map.mp hr
        rw [hcoh]
        simp only [beq_iff_eq]
        omega
      rw [h1, List.nil_append]
      have h2 := ih (base + 1) j (by simpa using hi)
      rw [show base + 1 + j = base + (j + 1) from by omega] at h2
      rw [h2]
      rfl

theorem seriesBlocks_filter_lt {α : Type} (getId : α → Nat) (setId : Nat → α → α)
    (hcoh : ∀ b r, getId (setId b r) = b) (rowsFor : AircraftRow → List α)
    (base aid : Nat) (l : List AircraftRow) (hlt : aid < base) :
    (seriesBlocks setId rowsFor base l).filter (fun r => getId r == aid) = [] := by
  rw [List.filter_eq_nil_iff]
  intro r hr
  have := (seriesBlocks_mem getId setId hcoh rowsFor base l r hr).1
  simp only [beq_iff_eq]
  omega

theorem markerRowsFrom_shape (nf : Nat) :
    ∀ (base : Nat) (l : List MarkerInsert),
      (markerRowsFrom nf base l).length = l.length ∧
      (∀ m ∈ markerRowsFrom nf base l, m.flight_id = nf) ∧
      (markerRowsFrom nf base l).map (fun m => (m.time_seconds, m.label, m.mtype)) =
        l.map (fun i => (i.time_seconds, i.label, i.mtype)) := by
  intro base l
  induction l generalizing base with
  | nil =>
    refine ⟨rfl, ?_, rfl⟩
    intro m hm
    cases hm
  | cons ins rest ih =>
    obtain ⟨ih1, ih2, ih3⟩ := ih (base + 1)
    refine ⟨?_, ?_, ?_⟩
    · show (markerRowsFrom nf (base + 1) rest).length + 1 = rest.length + 1
      rw [ih1]
    · intro m hm
      rcases List.mem_cons.mp hm with rfl | h2
      · rfl
      · exact ih2 m h2
    · show (_, _, _) :: _ = (_, _, _) :: _
      rw [ih3]

theorem insertMarkerRows_spec (nf : Nat) :
    ∀ (l : List MarkerInsert) (st : Store),
      (insertMarkerRows nf st l).markers = st.markers ++ markerRowsFrom nf st.nextMarkerId l ∧
      (insertMarkerRows nf st l).nextMarkerId = st.nextMarkerId + l.length ∧
      (insertMarkerRows nf st l).flights = st.flights ∧
      (insertMarkerRows nf st l).aircraft = st.aircraft ∧
      (insertMarkerRows nf st l).position = st.position ∧
      (insertMarkerRows nf st l).attitude = st.attitude ∧
      (insertMarkerRows nf st l).engine = st.engine ∧
      (insertMarkerRows nf st l).extraRows = st.extraRows ∧
      (insertMarkerRows nf st l).nextFlightId = st.nextFlightId ∧
      (insertMarkerRows nf st l).nextAircraftId = st.nextAircraftId := by
  intro l
  induction l with
  | nil =>
    intro st
    exact ⟨by simp [insertMarkerRows, markerRowsFrom], rfl, rfl, rfl, rfl, rfl, rfl, rfl,
      rfl, rfl⟩
  | cons ins rest ih =>
    intro st
    obtain ⟨ih1, ih2, ih3, ih4, ih5, ih6, ih7, ih8, ih9, ih10⟩ :=
      ih { st with
        nextMarkerId := st.nextMarkerId + 1
        markers := st.markers ++
          [{ id := st.nextMarkerId, flight_id := nf, time_seconds := ins.time_seconds,
             label := ins.label, mtype := ins.mtype }] }
    refine ⟨?_, ?_, ih3, ih4, ih5, ih6, ih7, ih8, ih9, ih10⟩
    · show (insertMarkerRows nf _ rest).markers = _
      rw [ih1]
      show (st.markers ++ [_]) ++ markerRowsFrom nf (st.nextMarkerId + 1) rest = _
      rw [List.append_assoc]
      rfl
    · show (insertMarkerRows nf _ rest).nextMarkerId = _
      rw [ih2]
      show st.nextMarkerId + 1 + rest.length = st.nextMarkerId + (rest.length + 1)
      omega

/-! ## Reads through a mid-transaction store -/

theorem positionOf_extends {s st : Store} (h : ExtendsFrom s st) {aid : Nat}
    (hlt : aid < s.nextAircraftId) : positionOf st aid = positionOf s aid := by
  obtain ⟨-, -, ⟨pe, hpe, hpb⟩, -, -⟩ := h
  unfold positionOf
  rw [hpe, List.filter_append]
  have : pe.filter (fun r => r.aircraft_id == aid) = [] := by
    rw [List.filter_eq_nil_iff]
    intro r hr
    have := hpb r hr
    simp only [beq_iff_eq]
    omega
  rw [this, List.append_nil]

theorem attitudeOf_extends {s st : Store} (h : ExtendsFrom s st) {aid : Nat}
    (hlt : aid < s.nextAircraftId) : attitudeOf st aid = attitudeOf s aid := by
  obtain ⟨-, -, -, ⟨ae, hae, hab⟩, -⟩ := h
  unfold attitudeOf
  rw [hae, List.filter_append]
  have : ae.filter (fun r => r.aircraft_id == aid) = [] := by
    rw [List.filter_eq_nil_iff]
    intro r hr
    have := hab r hr
    simp only [beq_iff_eq]
    omega
  rw [this, List.append_nil]

theorem engineOf_extends {s st : Store} (h : ExtendsFrom s st) {aid : Nat}
    (hlt : aid < s.nextAircraftId) : engineOf st aid = engineOf s aid := by
  obtain ⟨-, -, -, -, ⟨ee, hee, heb⟩⟩ := h
  unfold engineOf
  rw [hee, List.filter_append]
  have : ee.filter (fun r => r.aircraft_id == aid) = [] := by
    rw [List.filter_eq_nil_iff]
    intro r hr
    have := heb r hr
    simp only [beq_iff_eq]
    omega
  rw [this, List.append_nil]

theorem find?_aircraft_extends {s st : Store} (h : ExtendsFrom s st)
    (hnd : (s.aircraft.map (fun x => x.id)).Nodup) {ac : AircraftRow}
    (hmem : ac ∈ s.aircraft) :
    st.aircraft.find? (fun a => a.id == ac.id) = some ac := by
  obtain ⟨-, ⟨ne, hne, -⟩, -, -, -⟩ := h
  rw [hne, List.find?_append, find?_beq_id_of_nodup hmem hnd]
  rfl

/-! ## The aircraft-copying loop -/

theorem copyAircraftStep_ok (fns : CopyFns) (nf : Nat) {s st : Store}
    (hext : ExtendsFrom s st) (hnd : (s.aircraft.map (fun x => x.id)).Nodup)
    {ac : AircraftRow} (hmem : ac ∈ s.aircraft) (hlt : ac.id < s.nextAircraftId)
    {ps : List PositionRow} (hps : fns.copyPos (positionOf s ac.id) = .ok ps)
    {as1 : List AttitudeRow} (has : fns.copyAtt (attitudeOf s ac.id) = .ok as1)
    {es : List EngineRow} (hes : fns.copyEng (engineOf s ac.id) = .ok es) :
    copyAircraftStep fns nf st ac = .ok
      { st with
        nextAircraftId := st.nextAircraftId + 1
        aircraft := st.aircraft ++ [{ ac with id := st.nextAircraftId, flight_id := nf }]
        position := st.position ++ ps.map (posSetId st.nextAircraftId)
        attitude := st.attitude ++ as1.map (attSetId st.nextAircraftId)
        engine := st.engine ++ es.map (engSetId st.nextAircraftId) } := by
  have hfind := find?_aircraft_extends hext hnd hmem
  have hp : st.position.filter (fun r => r.aircraft_id == ac.id) = positionOf s ac.id :=
    positionOf_extends hext hlt
  have ha : st.attitude.filter (fun r => r.aircraft_id == ac.id) = attitudeOf s ac.id :=
    attitudeOf_extends hext hlt
  have he : st.engine.filter (fun r => r.aircraft_id == ac.id) = engineOf s ac.id :=
    engineOf_extends hext hlt
  simp only [copyAircraftStep, hfind, positionOf, attitudeOf, engineOf]
  rw [hp, hps]
  dsimp only
  rw [ha, has]
  dsimp only
  rw [he, hes]
  rfl

theorem copyAircraftLoop_ok (fns : CopyFns) (nf : Nat) (s : Store)
    (hnd : (s.aircraft.map (fun x => x.id)).Nodup)
    (hair : ∀ a ∈ s.aircraft, a.id < s.nextAircraftId) :
    ∀ (pending : List AircraftRow) (st : Store),
      (∀ ac ∈ pending, ac ∈ s.aircraft) →
      (∀ ac ∈ pending, (∃ x, fns.copyPos (positionOf s ac.id) = .ok x) ∧
        (∃ x, fns.copyAtt (attitudeOf s ac.id) = .ok x) ∧
        (∃ x, fns.copyEng (engineOf s ac.id) = .ok x)) →
      ExtendsFrom s st →
      copyAircraftLoop fns nf st pending = .ok
        { st with
          nextAircraftId := st.nextAircraftId + pending.length
          aircraft := st.aircraft ++ rekeyAircraft nf st.nextAircraftId pending
          position := st.position ++
            seriesBlocks posSetId (posRowsFor fns s) st.nextAircraftId pending
          attitude := st.attitude ++
            seriesBlocks attSetId (attRowsFor fns s) st.nextAircraftId pending
          engine := st.engine ++
            seriesBlocks engSetId (engRowsFor fns s) st.nextAircraftId pending } := by
  intro pending
  induction pending with
  | nil =>
    intro st _ _ _
    show Except.ok st = _
    simp [rekeyAircraft, seriesBlocks]
  | cons ac rest ih =>
    intro st hsub hok hext
    obtain ⟨⟨ps, hps⟩, ⟨as1, has⟩, ⟨es, hes⟩⟩ := hok ac (List.mem_cons_self _ _)
    have hmem : ac ∈ s.aircraft := hsub ac (List.mem_cons_self _ _)
    have hlt : ac.id < s.nextAircraftId := hair ac hmem
    have hstep := copyAircraftStep_ok fns nf hext hnd hmem hlt hps has hes
    show (match copyAircraftStep fns nf st ac with
      | Except.error e => Except.error e
      | Except.ok st1 => copyAircraftLoop fns nf st1 rest) = _
    rw [hstep]
    dsimp only
    obtain ⟨hna, ⟨ne, hne, hneb⟩, ⟨pe, hpe, hpeb⟩, ⟨ae, hae, haeb⟩, ⟨ee, hee, heeb⟩⟩ := hext
    have hext1 : ExtendsFrom s
        { st with
          nextAircraftId := st.nextAircraftId + 1
          aircraft := st.aircraft ++ [{ ac with id := st.nextAircraftId, flight_id := nf }]
          position := st.position ++ ps.map (posSetId st.nextAircraftId)
          attitude := st.attitude ++ as1.map (attSetId st.nextAircraftId)
          engine := st.engine ++ es.map (engSetId st.nextAircraftId) } := by
      refine ⟨by show s.nextAircraftId ≤ st.nextAircraftId + 1; omega,
        ⟨ne ++ [{ ac with id := st.nextAircraftId, flight_id := nf }], ?_, ?_⟩,
        ⟨pe ++ ps.map (posSetId st.nextAircraftId), ?_, ?_⟩,
        ⟨ae ++ as1.map (attSetId st.nextAircraftId), ?_, ?_⟩,
        ⟨ee ++ es.map (engSetId st.nextAircraftId), ?_, ?_⟩⟩
      · show st.aircraft ++ _ = _
        rw [hne, List.append_assoc]
      · intro a hga
        rcases List.mem_append.mp hga with h1 | h1
        · exact hneb a h1
        · rcases List.mem_singleton.mp h1 with rfl
          exact hna
      · show st.position ++ _ = _
        rw [hpe, List.append_assoc]
      · intro r hgr
        rcases List.mem_append.mp hgr with h1 | h1
        · exact hpeb r h1
        · obtain ⟨x, -, rfl⟩ := List.mem_map.mp h1
          exact hna
      · show st.attitude ++ _ = _
        rw [hae, List.append_assoc]
      · intro r hgr
        rcases List.mem_append.mp hgr with h1 | h1
        · exact haeb r h1
        · obtain ⟨x, -, rfl⟩ := List.mem_map.mp h1
          exact hna
      · show st.engine ++ _ = _
        rw [hee, List.append_assoc]
      · intro r hgr
        rcases List.mem_append.mp hgr with h1 | h1
        · exact heeb r h1
        · obtain ⟨x, -, rfl⟩ := List.mem_map.mp h1
          exact hna
    rw [ih _ (fun x hx => hsub x (List.mem_cons_of_mem _ hx))
      (fun x hx => hok x (List.mem_cons_of_mem _ hx)) hext1]
    have hrwP : posRowsFor fns s ac = ps := by
      unfold posRowsFor
      rw [hps]
      rfl
    have hrwA : attRowsFor fns s ac = as1 := by
      unfold attRowsFor
      rw [has]
      rfl
    have hrwE : engRowsFor fns s ac = es := by
      unfold engRowsFor
      rw [hes]
      rfl
    simp only [rekeyAircraft, seriesBlocks, hrwP, hrwA, hrwE, List.length_cons,
      List.append_assoc, List.singleton_append, List.cons_append, Except.ok.injEq,
      Store.mk.injEq, List.nil_append, true_and, and_true]
    omega

theorem copyFlightCore_ok (fns : CopyFns) (s : Store) (F : Nat) (t : String)
    (hWF : WF s) {f : FlightRow}
    (hf : s.flights.find? (fun x => x.id == F) = some f)
    (hok : ∀ ac ∈ aircraftOf s F,
      (∃ x, fns.copyPos (positionOf s ac.id) = .ok x) ∧
      (∃ x, fns.copyAtt (attitudeOf s ac.id) = .ok x) ∧
      (∃ x, fns.copyEng (engineOf s ac.id) = .ok x)) :
    ∃ s3, copyFlightCore fns s F t = .ok (s.nextFlightId, s3) ∧
      s3.flights = s.flights ++ [{ f with id := s.nextFlightId, title := some t }] ∧
      s3.aircraft = s.aircraft ++
        rekeyAircraft s.nextFlightId s.nextAircraftId (aircraftOf s F) ∧
      s3.position = s.position ++
        seriesBlocks posSetId (posRowsFor fns s) s.nextAircraftId (aircraftOf s F) ∧
      s3.attitude = s.attitude ++
        seriesBlocks attSetId (attRowsFor fns s) s.nextAircraftId (aircraftOf s F) ∧
      s3.engine = s.engine ++
        seriesBlocks engSetId (engRowsFor fns s) s.nextAircraftId (aircraftOf s F) ∧
      s3.markers = s.markers ++
        markerRowsFrom s.nextFlightId s.nextMarkerId (fns.copyMark (markersOf s F)) ∧
      s3.extraRows = s.extraRows ∧
      s3.nextFlightId = s.nextFlightId + 1 ∧
      s3.nextAircraftId = s.nextAircraftId + (aircraftOf s F).length ∧
      s3.nextMarkerId = s.nextMarkerId + (fns.copyMark (markersOf s F)).length := by
  obtain ⟨hflt, hairlt, hnd, hacf, hposlt, hattlt, henglt, hmarklt⟩ := hWF
  have hsub : ∀ ac ∈ aircraftOf s F, ac ∈ s.aircraft :=
    fun ac h => List.mem_of_mem_filter h
  have hext1 : ExtendsFrom s
      { s with
        nextFlightId := s.nextFlightId + 1
        flights := s.flights ++ [{ f with id := s.nextFlightId, title := some t }] } := by
    exact ⟨le_refl _, ⟨[], by simp, by simp⟩, ⟨[], by simp, by simp⟩,
      ⟨[], by simp, by simp⟩, ⟨[], by simp, by simp⟩⟩
  have hloop := copyAircraftLoop_ok fns s.nextFlightId s hnd hairlt (aircraftOf s F) _
    hsub hok hext1
  unfold copyFlightCore
  rw [hf]
  dsimp only
  rw [hloop]
  dsimp only
  refine ⟨_, rfl, ?_, ?_, ?_, ?_, ?_, ?_, ?_, ?_, ?_, ?_⟩
  · rw [(insertMarkerRows_spec _ _ _).2.2.1]
  · rw [(insertMarkerRows_spec _ _ _).2.2.2.1]
  · rw [(insertMarkerRows_spec _ _ _).2.2.2.2.1]
  · rw [(insertMarkerRows_spec _ _ _).2.2.2.2.2.1]
  · rw [(insertMarkerRows_spec _ _ _).2.2.2.2.2.2.1]
  · rw [(insertMarkerRows_spec _ _ _).1]
    rfl
  · rw [(insertMarkerRows_spec _ _ _).2.2.2.2.2.2.2.1]
  · rw [(insertMarkerRows_spec _ _ _).2.2.2.2.2.2.2.2.1]
  · rw [(insertMarkerRows_spec _ _ _).2.2.2.2.2.2.2.2.2]
  · rw [(insertMarkerRows_spec _ _ _).2.1]
    rfl

/-- Everything the derivation-engine claims read from the store a flight
copy produces: the new flight's aircraft are the re-keyed originals, each
new aircraft's telemetry is the copy function's output re-keyed, the new
flight's markers come from the marker copy function, and every query about
the original flight is unchanged. -/
theorem copyFlightCore_queries (fns : CopyFns) (s : Store) (F : Nat) (t : String)
    (hWF : WF s) {f : FlightRow}
    (hf : s.flights.find? (fun x => x.id == F) = some f)
    (hok : ∀ ac ∈ aircraftOf s F,
      (∃ x, fns.copyPos (positionOf s ac.id) = .ok x) ∧
      (∃ x, fns.copyAtt (attitudeOf s ac.id) = .ok x) ∧
      (∃ x, fns.copyEng (engineOf s ac.id) = .ok x)) :
    ∃ s3, copyFlightCore fns s F t = .ok (s.nextFlightId, s3) ∧
      aircraftOf s3 s.nextFlightId =
        rekeyAircraft s.nextFlightId s.nextAircraftId (aircraftOf s F) ∧
      (∀ i (hi : i < (aircraftOf s F).length),
        positionOf s3 (s.nextAircraftId + i) =
          (posRowsFor fns s ((aircraftOf s F).get ⟨i, hi⟩)).map
            (posSetId (s.nextAircraftId + i)) ∧
        attitudeOf s3 (s.nextAircraftId + i) =
          (attRowsFor fns s ((aircraftOf s F).get ⟨i, hi⟩)).map
            (attSetId (s.nextAircraftId + i)) ∧
        engineOf s3 (s.nextAircraftId + i) =
          (engRowsFor fns s ((aircraftOf s F).get ⟨i, hi⟩)).map
            (engSetId (s.nextAircraftId + i))) ∧
      markersOf s3 s.nextFlightId =
        markerRowsFrom s.nextFlightId s.nextMarkerId (fns.copyMark (markersOf s F)) ∧
      flightRowsOf s3 F = flightRowsOf s F ∧
      aircraftOf s3 F = aircraftOf s F ∧
      (∀ aid, aid < s.nextAircraftId →
        positionOf s3 aid = positionOf s aid ∧
        attitudeOf s3 aid = attitudeOf s aid ∧
        engineOf s3 aid = engineOf s aid) ∧
      markersOf s3 F = markersOf s F := by
  obtain ⟨s3, hcore, hfl, hac, hposq, hattq, hengq, hmk, hex, hnf1, hna1, hnm1⟩ :=
    copyFlightCore_ok fns s F t hWF hf hok
  obtain ⟨hflt, hairlt, hnd, hacf, hposlt, hattlt, henglt, hmarklt⟩ := hWF
  have hfmem : f ∈ s.flights := List.mem_of_find?_eq_some hf
  have hfid : f.id = F := by
    have := List.find?_some hf
    simpa using this
  have hFlt : F < s.nextFlightId := hfid ▸ hflt f hfmem
  refine ⟨s3, hcore, ?_, ?_, ?_, ?_, ?_, ?_, ?_⟩
  · rw [aircraftOf, hac, List.filter_append]
    have h1 : s.aircraft.filter (fun a => a.flight_id == s.nextFlightId) = [] := by
      rw [List.filter_eq_nil_iff]
      intro a ha
      have := hacf a ha
      simp only [beq_iff_eq]
      omega
    have h2 : (rekeyAircraft s.nextFlightId s.nextAircraftId (aircraftOf s F)).filter
        (fun a => a.flight_id == s.nextFlightId) =
        rekeyAircraft s.nextFlightId s.nextAircraftId (aircraftOf s F) := by
      rw [List.filter_eq_self]
      intro a ha
      have := (rekeyAircraft_mem s.nextFlightId s.nextAircraftId (aircraftOf s F) a ha).1
      simp [this]
    rw [h1, h2, List.nil_append]
  · intro i hi
    refine ⟨?_, ?_, ?_⟩
    · rw [positionOf, hposq, List.filter_append]
      have h1 : s.position.filter (fun r => r.aircraft_id == s.nextAircraftId + i) = [] := by
        rw [List.filter_eq_nil_iff]
        intro r hr
        have := hposlt r hr
        simp only [beq_iff_eq]
        omega
      rw [h1, List.nil_append]
      exact seriesBlocks_filter_eq (fun r => r.aircraft_id) posSetId (fun _ _ => rfl)
        (posRowsFor fns s) s.nextAircraftId i (aircraftOf s F) hi
    · rw [attitudeOf, hattq, List.filter_append]
      have h1 : s.attitude.filter (fun r => r.aircraft_id == s.nextAircraftId + i) = [] := by
        rw [List.filter_eq_nil_iff]
        intro r hr
        have := hattlt r hr
        simp only [beq_iff_eq]
        omega
      rw [h1, List.nil_append]
      exact seriesBlocks_filter_eq (fun r => r.aircraft_id) attSetId (fun _ _ => rfl)
        (attRowsFor fns s) s.nextAircraftId i (aircraftOf s F) hi
    · rw [engineOf, hengq, List.filter_append]
      have h1 : s.engine.filter (fun r => r.aircraft_id == s.nextAircraftId + i) = [] := by
        rw [List.filter_eq_nil_iff]
        intro r hr
        have := henglt r hr
        simp only [beq_iff_eq]
        omega
      rw [h1, List.nil_append]
      exact seriesBlocks_filter_eq (fun r => r.aircraft_id) engSetId (fun _ _ => rfl)
        (engRowsFor fns s) s.nextAircraftId i (aircraftOf s F) hi
  · rw [markersOf, hmk, List.filter_append]
    have h1 : s.markers.filter (fun m => m.flight_id == s.nextFlightId) = [] := by
      rw [List.filter_eq_nil_iff]
      intro m hm
      have := hmarklt m hm
      simp only [beq_iff_eq]
      omega
    have h2 : (markerRowsFrom s.nextFlightId s.nextMarkerId
        (fns.copyMark (markersOf s F))).filter (fun m => m.flight_id == s.nextFlightId) =
        markerRowsFrom s.nextFlightId s.nextMarkerId (fns.copyMark (markersOf s F)) := by
      rw [List.filter_eq_self]
      intro m hm
      have := (markerRowsFrom_shape s.nextFlightId s.nextMarkerId
        (fns.copyMark (markersOf s F))).2.1 m hm
      simp [this]
    rw [h1, h2, List.nil_append]
  · rw [flightRowsOf, flightRowsOf, hfl, List.filter_append]
    have h1 : ([{ f with id := s.nextFlightId, title := some t }] :
        List FlightRow).filter (fun x => x.id == F) = [] := by
      rw [List.filter_eq_nil_iff]
      intro x hx
      rcases List.mem_singleton.mp hx with rfl
      simp only [beq_iff_eq]
      show ¬ s.nextFlightId = F
      omega
    rw [h1, List.append_nil]
  · rw [aircraftOf, aircraftOf, hac, List.filter_append]
    have h2 : (rekeyAircraft s.nextFlightId s.nextAircraftId (aircraftOf s F)).filter
        (fun a => a.flight_id == F) = [] := by
      rw [List.filter_eq_nil_iff]
      intro a ha
      have := (rekeyAircraft_mem s.nextFlightId s.nextAircraftId (aircraftOf s F) a ha).1
      simp only [beq_iff_eq, this]
      omega
    rw [h2, List.append_nil]
  · intro aid hlt
    refine ⟨?_, ?_, ?_⟩
    · rw [positionOf, positionOf, hposq, List.filter_append,
        seriesBlocks_filter_lt (fun r => r.aircraft_id) posSetId (fun _ _ => rfl)
          (posRowsFor fns s) s.nextAircraftId aid (aircraftOf s F) hlt, List.append_nil]
    · rw [attitudeOf, attitudeOf, hattq, List.filter_append,
        seriesBlocks_filter_lt (fun r => r.aircraft_id) attSetId (fun _ _ => rfl)
          (attRowsFor fns s) s.nextAircraftId aid (aircraftOf s F) hlt, List.append_nil]
    · rw [engineOf, engineOf, hengq, List.filter_append,
        seriesBlocks_filter_lt (fun r => r.aircraft_id) engSetId (fun _ _ => rfl)
          (engRowsFor fns s) s.nextAircraftId aid (aircraftOf s F) hlt, List.append_nil]
  · rw [markersOf, markersOf, hmk, List.filter_append]
    have h2 : (markerRowsFrom s.nextFlightId s.nextMarkerId
        (fns.copyMark (markersOf s F))).filter (fun m => m.flight_id == F) = [] := by
      rw [List.filter_eq_nil_iff]
      intro m hm
      have := (markerRowsFrom_shape s.nextFlightId s.nextMarkerId
        (fns.copyMark (markersOf s F))).2.1 m hm
      simp only [beq_iff_eq, this]
      omega
    rw [h2, List.append_nil]

/-- C3: duplicating an existing flight F yields a new flight whose aircraft
count, per-aircraft telemetry row counts (position, attitude, engine) and
marker count exactly equal F's, with telemetry timestamps and marker time
offsets unchanged, and F itself is unchanged afterwards: its flight row,
aircraft rows, telemetry rows and markers are all identical before and
after. -/
theorem duplicate_roundtrip (s : Store) (F : Nat) (t : String) (hWF : WF s)
    (f : FlightRow) (hf : s.flights.find? (fun x => x.id == F) = some f) :
    ∃ s1, duplicateFlight s F t = .ok (s.nextFlightId, s1) ∧
      (aircraftOf s1 s.nextFlightId).length = (aircraftOf s F).length ∧
      (∀ i (hi : i < (aircraftOf s F).length)
         (hi2 : i < (aircraftOf s1 s.nextFlightId).length),
        (positionOf s1 ((aircraftOf s1 s.nextFlightId).get ⟨i, hi2⟩).id).length =
          (positionOf s ((aircraftOf s F).get ⟨i, hi⟩).id).length ∧
        (positionOf s1 ((aircraftOf s1 s.nextFlightId).get ⟨i, hi2⟩).id).map
            (fun r => r.timestamp) =
          (positionOf s ((aircraftOf s F).get ⟨i, hi⟩).id).map (fun r => r.timestamp) ∧
        (attitudeOf s1 ((aircraftOf s1 s.nextFlightId).get ⟨i, hi2⟩).id).length =
          (attitudeOf s ((aircraftOf s F).get ⟨i, hi⟩).id).length ∧
        (attitudeOf s1 ((aircraftOf s1 s.nextFlightId).get ⟨i, hi2⟩).id).map
            (fun r => r.timestamp) =
          (attitudeOf s ((aircraftOf s F).get ⟨i, hi⟩).id).map (fun r => r.timestamp) ∧
        (engineOf s1 ((aircraftOf s1 s.nextFlightId).get ⟨i, hi2⟩).id).length =
          (engineOf s ((aircraftOf s F).get ⟨i, hi⟩).id).length ∧
        (engineOf s1 ((aircraftOf s1 s.nextFlightId).get ⟨i, hi2⟩).id).map
            (fun r => r.timestamp) =
          (engineOf s ((aircraftOf s F).get ⟨i, hi⟩).id).map (fun r => r.timestamp)) ∧
      (markersOf s1 s.nextFlightId).length = (markersOf s F).length ∧
      (markersOf s1 s.nextFlightId).map (fun m => m.time_seconds) =
        (markersOf s F).map (fun m => m.time_seconds) ∧
      flightRowsOf s1 F = flightRowsOf s F ∧
      aircraftOf s1 F = aircraftOf s F ∧
      (∀ ac ∈ aircraftOf s F,
        positionOf s1 ac.id = positionOf s ac.id ∧
        attitudeOf s1 ac.id = attitudeOf s ac.id ∧
        engineOf s1 ac.id = engineOf s ac.id) ∧
      markersOf s1 F = markersOf s F := by
  have hok : ∀ ac ∈ aircraftOf s F,
      (∃ x, dupCopyFns.copyPos (positionOf s ac.id) = .ok x) ∧
      (∃ x, dupCopyFns.copyAtt (attitudeOf s ac.id) = .ok x) ∧
      (∃ x, dupCopyFns.copyEng (engineOf s ac.id) = .ok x) :=
    fun ac _ => ⟨⟨positionOf s ac.id, rfl⟩, ⟨attitudeOf s ac.id, rfl⟩,
      ⟨engineOf s ac.id, rfl⟩⟩
  obtain ⟨s3, hcore, hnewac, hidx, hnewmk, hflrows, hacF, hold, hmkF⟩ :=
    copyFlightCore_queries dupCopyFns s F t hWF hf hok
  have hlen : (aircraftOf s3 s.nextFlightId).length = (aircraftOf s F).length := by
    rw [hnewac, rekeyAircraft_length]
  refine ⟨s3, hcore, hlen, ?_, ?_, ?_, hflrows, hacF, ?_, hmkF⟩
  · intro i hi hi2
    have hi3 : i < (rekeyAircraft s.nextFlightId s.nextAircraftId (aircraftOf s F)).length := by
      rw [rekeyAircraft_length]
      exact hi
    have hget : (aircraftOf s3 s.nextFlightId).get ⟨i, hi2⟩ =
        { (aircraftOf s F).get ⟨i, hi⟩ with
          id := s.nextAircraftId + i
          flight_id := s.nextFlightId } := by
      rw [List.get_of_eq hnewac ⟨i, hi2⟩]
      exact rekeyAircraft_get s.nextFlightId s.nextAircraftId (aircraftOf s F) i hi _
    obtain ⟨hp, ha, he⟩ := hidx i hi
    rw [hget]
    show (positionOf s3 (s.nextAircraftId + i)).length = _ ∧
      (positionOf s3 (s.nextAircraftId + i)).map (fun r => r.timestamp) = _ ∧
      (attitudeOf s3 (s.nextAircraftId + i)).length = _ ∧
      (attitudeOf s3 (s.nextAircraftId + i)).map (fun r => r.timestamp) = _ ∧
      (engineOf s3 (s.nextAircraftId + i)).length = _ ∧
      (engineOf s3 (s.nextAircraftId + i)).map (fun r => r.timestamp) = _
    rw [hp, ha, he]
    have hdp : posRowsFor dupCopyFns s ((aircraftOf s F).get ⟨i, hi⟩) =
        positionOf s ((aircraftOf s F).get ⟨i, hi⟩).id := rfl
    have hda : attRowsFor dupCopyFns s ((aircraftOf s F).get ⟨i, hi⟩) =
        attitudeOf s ((aircraftOf s F).get ⟨i, hi⟩).id := rfl
    have hde : engRowsFor dupCopyFns s ((aircraftOf s F).get ⟨i, hi⟩) =
        engineOf s ((aircraftOf s F).get ⟨i, hi⟩).id := rfl
    rw [hdp, hda, hde]
    refine ⟨by rw [List.length_map], ?_, by rw [List.length_map], ?_,
      by rw [List.length_map], ?_⟩
    · rw [List.map_map]
      rfl
    · rw [List.map_map]
      rfl
    · rw [List.map_map]
      rfl
  · rw [hnewmk, (markerRowsFrom_shape _ _ _).1]
    show ((markersOf s F).map _).length = _
    rw [List.length_map]
  · rw [hnewmk]
    have h3 := (markerRowsFrom_shape s.nextFlightId s.nextMarkerId
      (dupCopyFns.copyMark (markersOf s F))).2.2
    have h4 := congrArg (List.map (fun p : ℚ × String × String => p.1)) h3
    rw [List.map_map, List.map_map] at h4
    have h5 : (markersOf s F).map (fun m => m.time_seconds) =
        (dupCopyFns.copyMark (markersOf s F)).map (fun i => i.time_seconds) := by
      show _ = ((markersOf s F).map _).map _
      rw [List.map_map]
      rfl
    rw [h5]
    exact h4
  · intro ac hac
    have hlt : ac.id < s.nextAircraftId := hWF.2.1 ac (List.mem_of_mem_filter hac)
    exact hold ac.id hlt

/-- C3 witness: duplicating flight 1 of the demo store. -/
theorem duplicate_roundtrip_witness :
    WF demoStore ∧
    (∃ s1, duplicateFlight demoStore 1 "Copy" = .ok (demoStore.nextFlightId, s1) ∧
      (aircraftOf s1 demoStore.nextFlightId).length = (aircraftOf demoStore 1).length ∧
      (markersOf s1 demoStore.nextFlightId).length = (markersOf demoStore 1).length ∧
      aircraftOf s1 1 = aircraftOf demoStore 1 ∧
      markersOf s1 1 = markersOf demoStore 1) := by
  obtain ⟨s1, h1, h2, _, h4, _, _, h7, _, h9⟩ :=
    duplicate_roundtrip demoStore 1 "Copy" (by unfold WF; decide)
      ({ mkFlightRow 1 with title := some "Original" }) rfl
  exact ⟨by unfold WF; decide, s1, h1, h2, h4, h7, h9⟩

/-- C10: every marker copied into the new flight by the full duplicate has
type `regular`, regardless of the source marker's type: the marker copy
inserts only flight_id, time_seconds and label, so the schema default
`regular` replaces trim_start/trim_end discriminators and a staged trim
selection does not survive duplication.  Times and labels are preserved. -/
theorem duplicate_markers_regular (s : Store) (F : Nat) (t : String) (hWF : WF s)
    (f : FlightRow) (hf : s.flights.find? (fun x => x.id == F) = some f) :
    ∃ s1, duplicateFlight s F t = .ok (s.nextFlightId, s1) ∧
      (∀ m ∈ markersOf s1 s.nextFlightId, m.mtype = "regular") ∧
      (markersOf s1 s.nextFlightId).map (fun m => (m.time_seconds, m.label)) =
        (markersOf s F).map (fun m => (m.time_seconds, m.label)) := by
  have hok : ∀ ac ∈ aircraftOf s F,
      (∃ x, dupCopyFns.copyPos (positionOf s ac.id) = .ok x) ∧
      (∃ x, dupCopyFns.copyAtt (attitudeOf s ac.id) = .ok x) ∧
      (∃ x, dupCopyFns.copyEng (engineOf s ac.id) = .ok x) :=
    fun ac _ => ⟨⟨positionOf s ac.id, rfl⟩, ⟨attitudeOf s ac.id, rfl⟩,
      ⟨engineOf s ac.id, rfl⟩⟩
  obtain ⟨s3, hcore, -, -, hnewmk, -, -, -, -⟩ :=
    copyFlightCore_queries dupCopyFns s F t hWF hf hok
  have h3 := (markerRowsFrom_shape s.nextFlightId s.nextMarkerId
    (dupCopyFns.copyMark (markersOf s F))).2.2
  refine ⟨s3, hcore, ?_, ?_⟩
  · intro m hm
    rw [hnewmk] at hm
    have h4 := congrArg (List.map (fun p : ℚ × String × String => p.2.2)) h3
    rw [List.map_map, List.map_map] at h4
    have h5 : m.mtype ∈ (markerRowsFrom s.nextFlightId s.nextMarkerId
        (dupCopyFns.copyMark (markersOf s F))).map (fun m => m.mtype) :=
      List.mem_map_of_mem _ hm
    have h6 : (markerRowsFrom s.nextFlightId s.nextMarkerId
        (dupCopyFns.copyMark (markersOf s F))).map (fun m => m.mtype) =
        (markersOf s F).map (fun _ => "regular") := by
      have h7 : ((fun p : ℚ × String × String => p.2.2) ∘
          (fun m : MarkerRow => (m.time_seconds, m.label, m.mtype))) =
          (fun m : MarkerRow => m.mtype) := rfl
      rw [h7] at h4
      rw [h4]
      show ((markersOf s F).map _).map _ = _
      rw [List.map_map]
      rfl
    rw [h6] at h5
    obtain ⟨x, -, hx⟩ := List.mem_map.mp h5
    exact hx.symm
  · rw [hnewmk]
    have h4 := congrArg (List.map (fun p : ℚ × String × String => (p.1, p.2.1))) h3
    rw [List.map_map, List.map_map] at h4
    have h5 : (markersOf s F).map (fun m => (m.time_seconds, m.label)) =
        (dupCopyFns.copyMark (markersOf s F)).map (fun i => (i.time_seconds, i.label)) := by
      show _ = ((markersOf s F).map _).map _
      rw [List.map_map]
      rfl
    rw [h5]
    exact h4

/-- C10 witness: duplicating demo flight 1, whose markers include a
`trim_start` marker, yields only `regular` markers on the copy. -/
theorem duplicate_markers_regular_witness :
    WF demoStore ∧
    (∃ m ∈ markersOf demoStore 1, m.mtype = "trim_start") ∧
    (∃ s1, duplicateFlight demoStore 1 "Copy2" = .ok (demoStore.nextFlightId, s1) ∧
      (∀ m ∈ markersOf s1 demoStore.nextFlightId, m.mtype = "regular") ∧
      (markersOf s1 demoStore.nextFlightId).map (fun m => (m.time_seconds, m.label)) =
        (markersOf demoStore 1).map (fun m => (m.time_seconds, m.label))) :=
  ⟨by unfold WF; decide, by decide,
   duplicate_markers_regular demoStore 1 "Copy2" (by unfold WF; decide)
     ({ mkFlightRow 1 with title := some "Original" }) rfl⟩

/-! ## Trim copy lemmas -/

theorem trimPosCopy_eq (startTime endTime : ℚ) (rows : List PositionRow) (h : rows ≠ []) :
    trimPosCopy startTime endTime rows = .ok (trimWindowP startTime endTime rows) := by
  cases rows with
  | nil => exact absurd rfl h
  | cons a l => rfl

theorem trimAttCopy_eq (startTime endTime : ℚ) (rows : List AttitudeRow) (h : rows ≠ []) :
    trimAttCopy startTime endTime rows = .ok (trimWindowA startTime endTime rows) := by
  cases rows with
  | nil => exact absurd rfl h
  | cons a l => rfl

theorem trimEngCopy_eq (startTime endTime : ℚ) (rows : List EngineRow) (h : rows ≠ []) :
    trimEngCopy startTime endTime rows = .ok (trimWindowE startTime endTime rows) := by
  cases rows with
  | nil => exact absurd rfl h
  | cons a l => rfl

theorem posRowsFor_trim (startTime endTime : ℚ) (s : Store) (ac : AircraftRow)
    (h : positionOf s ac.id ≠ []) :
    posRowsFor (trimCopyFns startTime endTime) s ac =
      trimWindowP startTime endTime (positionOf s ac.id) := by
  unfold posRowsFor
  show (trimPosCopy startTime endTime (positionOf s ac.id)).toOption.getD [] = _
  rw [trimPosCopy_eq startTime endTime _ h]
  rfl

theorem attRowsFor_trim (startTime endTime : ℚ) (s : Store) (ac : AircraftRow)
    (h : attitudeOf s ac.id ≠ []) :
    attRowsFor (trimCopyFns startTime endTime) s ac =
      trimWindowA startTime endTime (attitudeOf s ac.id) := by
  unfold attRowsFor
  show (trimAttCopy startTime endTime (attitudeOf s ac.id)).toOption.getD [] = _
  rw [trimAttCopy_eq startTime endTime _ h]
  rfl

theorem engRowsFor_trim (startTime endTime : ℚ) (s : Store) (ac : AircraftRow)
    (h : engineOf s ac.id ≠ []) :
    engRowsFor (trimCopyFns startTime endTime) s ac =
      trimWindowE startTime endTime (engineOf s ac.id) := by
  unfold engRowsFor
  show (trimEngCopy startTime endTime (engineOf s ac.id)).toOption.getD [] = _
  rw [trimEngCopy_eq startTime endTime _ h]
  rfl

theorem goInt64_ten_thousand : goInt64 ((10 : ℚ) * 1000) = 10000 := by
  unfold goInt64
  rw [if_pos (by norm_num : (0 : ℚ) ≤ 10 * 1000)]
  rw [show ((10 : ℚ) * 1000) = ((10000 : Int) : ℚ) from by norm_num, Int.floor_intCast]

theorem goInt64_forty_thousand : goInt64 ((40 : ℚ) * 1000) = 40000 := by
  unfold goInt64
  rw [if_pos (by norm_num : (0 : ℚ) ≤ 40 * 1000)]
  rw [show ((40 : ℚ) * 1000) = ((40000 : Int) : ℚ) from by norm_num, Int.floor_intCast]

theorem trimWindow_frame (P : List PositionRow) (minP : Int)
    (hminP : minP = minIntList (P.map (fun r => r.timestamp)))
    (hwin : ∃ r ∈ P, 10 * 1000 ≤ r.timestamp - minP ∧ r.timestamp - minP ≤ 40 * 1000) :
    (trimWindowP 10 40 P).length =
      (P.filter (fun r =>
        (10 : Int) * 1000 ≤ r.timestamp - minP ∧ r.timestamp - minP ≤ 40 * 1000)).length ∧
    trimWindowP 10 40 P ≠ [] ∧
    minIntList (ownFrameTimestamps (trimWindowP 10 40 P)) = 0 ∧
    maxIntList (ownFrameTimestamps (trimWindowP 10 40 P)) ≤ 30 * 1000 := by
  have hfil : trimWindowP 10 40 P =
      (P.filter (fun r => minP + 10000 ≤ r.timestamp ∧ r.timestamp ≤ minP + 40000)).map
        (fun r => { r with timestamp := r.timestamp - 10000 }) := by
    unfold trimWindowP
    rw [← hminP, goInt64_ten_thousand, goInt64_forty_thousand]
    have hfeq : (fun r : PositionRow =>
        { r with timestamp := minP + (r.timestamp - (minP + 10000)) }) =
        (fun r : PositionRow => { r with timestamp := r.timestamp - 10000 }) := by
      funext r
      rw [show minP + (r.timestamp - (minP + 10000)) = r.timestamp - 10000 from by omega]
    rw [hfeq]
  obtain ⟨r0, hr0, hr01, hr02⟩ := hwin
  have hr0f : r0 ∈ P.filter (fun r => minP + 10000 ≤ r.timestamp ∧ r.timestamp ≤ minP + 40000) :=
    List.mem_filter.mpr ⟨hr0, by simp only [decide_eq_true_eq]; omega⟩
  have hTne : (P.filter (fun r => minP + 10000 ≤ r.timestamp ∧ r.timestamp ≤ minP + 40000)).map
      (fun r => r.timestamp) ≠ [] :=
    List.ne_nil_of_mem (List.mem_map_of_mem _ hr0f)
  have hT : (trimWindowP 10 40 P).map (fun r => r.timestamp) =
      ((P.filter (fun r => minP + 10000 ≤ r.timestamp ∧ r.timestamp ≤ minP + 40000)).map
        (fun r => r.timestamp)).map (fun v => v - 10000) := by
    rw [hfil, List.map_map, List.map_map]
    rfl
  have hLne : (trimWindowP 10 40 P).map (fun r => r.timestamp) ≠ [] := by
    rw [hT]
    exact List.ne_nil_of_mem (List.mem_map_of_mem _ (List.mem_map_of_mem _ hr0f))
  have hbound : ∀ v ∈ (P.filter
      (fun r => minP + 10000 ≤ r.timestamp ∧ r.timestamp ≤ minP + 40000)).map
      (fun r => r.timestamp), minP + 10000 ≤ v ∧ v ≤ minP + 40000 := by
    intro v hv
    obtain ⟨r, hr, rfl⟩ := List.mem_map.mp hv
    have hc := List.of_mem_filter hr
    simp only [decide_eq_true_eq] at hc
    exact hc
  have hminTb := hbound _ (minIntList_mem hTne)
  have hmaxTb := hbound _ (maxIntList_mem hTne)
  refine ⟨?_, ?_, ?_, ?_⟩
  · rw [hfil, List.length_map]
    congr 1
    apply List.filter_congr
    intro r _
    simp only [decide_eq_decide]
    omega
  · rw [hfil]
    intro hc
    have hm := List.mem_map_of_mem
      (fun r : PositionRow => { r with timestamp := r.timestamp - 10000 }) hr0f
    rw [hc] at hm
    exact List.not_mem_nil _ hm
  · unfold ownFrameTimestamps
    rw [minIntList_map_sub _ _ hLne]
    omega
  · unfold ownFrameTimestamps
    rw [maxIntList_map_sub _ _ hLne, hT, maxIntList_map_sub _ _ hTne,
      minIntList_map_sub _ _ hTne]
    omega

/-- C5: during a trim, each telemetry series (position, attitude, engine) of
each aircraft is processed independently: the new series for aircraft `i` is
exactly `trimWindowP`/`trimWindowA`/`trimWindowE` applied to that series
alone, i.e. the window `[start, end]` (seconds, times 1000) is anchored at
THAT series' own minimum timestamp and the selected rows are re-based by the
same per-series anchor — no flight-level time base shared across the three
series appears anywhere. -/
theorem trim_series_independent (s : Store) (F : Nat) (t : String)
    (startTime endTime : ℚ) (hWF : WF s) (f : FlightRow)
    (hf : s.flights.find? (fun x => x.id == F) = some f)
    (hne : ∀ ac ∈ aircraftOf s F,
      positionOf s ac.id ≠ [] ∧ attitudeOf s ac.id ≠ [] ∧ engineOf s ac.id ≠ []) :
    ∃ s1, trimFlight s F t startTime endTime = .ok (s.nextFlightId, s1) ∧
      ∀ i (hi : i < (aircraftOf s F).length),
        positionOf s1 (s.nextAircraftId + i) =
          (trimWindowP startTime endTime
            (positionOf s ((aircraftOf s F).get ⟨i, hi⟩).id)).map
            (posSetId (s.nextAircraftId + i)) ∧
        attitudeOf s1 (s.nextAircraftId + i) =
          (trimWindowA startTime endTime
            (attitudeOf s ((aircraftOf s F).get ⟨i, hi⟩).id)).map
            (attSetId (s.nextAircraftId + i)) ∧
        engineOf s1 (s.nextAircraftId + i) =
          (trimWindowE startTime endTime
            (engineOf s ((aircraftOf s F).get ⟨i, hi⟩).id)).map
            (engSetId (s.nextAircraftId + i)) := by
  have hok : ∀ ac ∈ aircraftOf s F,
      (∃ x, (trimCopyFns startTime endTime).copyPos (positionOf s ac.id) = .ok x) ∧
      (∃ x, (trimCopyFns startTime endTime).copyAtt (attitudeOf s ac.id) = .ok x) ∧
      (∃ x, (trimCopyFns startTime endTime).copyEng (engineOf s ac.id) = .ok x) := by
    intro ac hac
    obtain ⟨hpne, hane, hene⟩ := hne ac hac
    exact ⟨⟨_, trimPosCopy_eq startTime endTime _ hpne⟩,
      ⟨_, trimAttCopy_eq startTime endTime _ hane⟩,
      ⟨_, trimEngCopy_eq startTime endTime _ hene⟩⟩
  obtain ⟨s3, hcore, -, hidx, -, -, -, -, -⟩ :=
    copyFlightCore_queries (trimCopyFns startTime endTime) s F t hWF hf hok
  refine ⟨s3, hcore, ?_⟩
  intro i hi
  obtain ⟨hp, ha, he⟩ := hidx i hi
  have hmem : (aircraftOf s F).get ⟨i, hi⟩ ∈ aircraftOf s F := List.get_mem _ i hi
  obtain ⟨hpne, hane, hene⟩ := hne _ hmem
  rw [posRowsFor_trim startTime endTime s _ hpne] at hp
  rw [attRowsFor_trim startTime endTime s _ hane] at ha
  rw [engRowsFor_trim startTime endTime s _ hene] at he
  exact ⟨hp, ha, he⟩

/-- C5 witness: trimming demo flight 1 to the window `[10, 40]`.  The three
series of aircraft 1 have different minimum timestamps (5000, 6000, 7000),
and each new series is the per-series window formula of that series alone. -/
theorem trim_series_independent_witness :
    WF demoStore ∧
    (∀ ac ∈ aircraftOf demoStore 1,
      positionOf demoStore ac.id ≠ [] ∧ attitudeOf demoStore ac.id ≠ [] ∧
      engineOf demoStore ac.id ≠ []) ∧
    (∃ s1, trimFlight demoStore 1 "Windowed" 10 40 = .ok (2, s1) ∧
      positionOf s1 2 = (trimWindowP 10 40 (positionOf demoStore 1)).map (posSetId 2) ∧
      attitudeOf s1 2 = (trimWindowA 10 40 (attitudeOf demoStore 1)).map (attSetId 2) ∧
      engineOf s1 2 = (trimWindowE 10 40 (engineOf demoStore 1)).map (engSetId 2)) := by
  obtain ⟨s1, h1, hidx⟩ := trim_series_independent demoStore 1 "Windowed" 10 40
    (by unfold WF; decide) ({ mkFlightRow 1 with title := some "Original" }) rfl
    (by decide)
  obtain ⟨hp, ha, he⟩ := hidx 0 (by decide)
  exact ⟨by unfold WF; decide, by decide, s1, h1, hp, ha, he⟩

/-- C2: trimming a flight to the window `[10, 40]` yields, for each aircraft,
a new position series whose row count equals the number of original position
rows whose offset from the series minimum lies in `[10s, 40s]` inclusive at
both ends, and which, expressed in its own frame (timestamps minus the new
series' minimum timestamp), has minimum exactly 0 and maximum at most 30
seconds.  The window hypothesis only asks for one original row inside the
window, which a series covering offsets 0..100s satisfies. -/
theorem trim_correctness (s : Store) (F : Nat) (t : String) (hWF : WF s)
    (f : FlightRow) (hf : s.flights.find? (fun x => x.id == F) = some f)
    (hne : ∀ ac ∈ aircraftOf s F,
      positionOf s ac.id ≠ [] ∧ attitudeOf s ac.id ≠ [] ∧ engineOf s ac.id ≠ [])
    (i : Nat) (hi : i < (aircraftOf s F).length)
    (P : List PositionRow) (hP : P = positionOf s ((aircraftOf s F).get ⟨i, hi⟩).id)
    (minP : Int) (hminP : minP = minIntList (P.map (fun r => r.timestamp)))
    (hwin : ∃ r ∈ P, 10 * 1000 ≤ r.timestamp - minP ∧ r.timestamp - minP ≤ 40 * 1000) :
    ∃ s1, trimFlight s F t 10 40 = .ok (s.nextFlightId, s1) ∧
      (positionOf s1 (s.nextAircraftId + i)).length =
        (P.filter (fun r =>
          (10 : Int) * 1000 ≤ r.timestamp - minP ∧ r.timestamp - minP ≤ 40 * 1000)).length ∧
      positionOf s1 (s.nextAircraftId + i) ≠ [] ∧
      minIntList (ownFrameTimestamps (positionOf s1 (s.nextAircraftId + i))) = 0 ∧
      maxIntList (ownFrameTimestamps (positionOf s1 (s.nextAircraftId + i))) ≤ 30 * 1000 := by
  have hok : ∀ ac ∈ aircraftOf s F,
      (∃ x, (trimCopyFns 10 40).copyPos (positionOf s ac.id) = .ok x) ∧
      (∃ x, (trimCopyFns 10 40).copyAtt (attitudeOf s ac.id) = .ok x) ∧
      (∃ x, (trimCopyFns 10 40).copyEng (engineOf s ac.id) = .ok x) := by
    intro ac hac
    obtain ⟨hpne, hane, hene⟩ := hne ac hac
    exact ⟨⟨_, trimPosCopy_eq 10 40 _ hpne⟩, ⟨_, trimAttCopy_eq 10 40 _ hane⟩,
      ⟨_, trimEngCopy_eq 10 40 _ hene⟩⟩
  obtain ⟨s3, hcore, -, hidx, -, -, -, -, -⟩ :=
    copyFlightCore_queries (trimCopyFns 10 40) s F t hWF hf hok
  obtain ⟨hp, -, -⟩ := hidx i hi
  have hmem : (aircraftOf s F).get ⟨i, hi⟩ ∈ aircraftOf s F := List.get_mem _ i hi
  have hpne := (hne _ hmem).1
  rw [posRowsFor_trim 10 40 s _ hpne] at hp
  rw [← hP] at hp
  have hts : (List.map (posSetId (s.nextAircraftId + i)) (trimWindowP 10 40 P)).map
      (fun r => r.timestamp) = (trimWindowP 10 40 P).map (fun r => r.timestamp) := by
    rw [List.map_map]
    rfl
  have hofs : ownFrameTimestamps (positionOf s3 (s.nextAircraftId + i)) =
      ownFrameTimestamps (trimWindowP 10 40 P) := by
    rw [hp]
    unfold ownFrameTimestamps
    rw [hts]
  obtain ⟨hlen, hnonempty, hmin, hmax⟩ := trimWindow_frame P minP hminP hwin
  refine ⟨s3, hcore, ?_, ?_, ?_, ?_⟩
  · rw [hp, List.length_map]
    exact hlen
  · rw [hp]
    intro hc
    apply hnonempty
    cases htw : trimWindowP 10 40 P with
    | nil => rfl
    | cons a l =>
      rw [htw, List.map_cons] at hc
      exact absurd hc (List.cons_ne_nil _ _)
  · rw [hofs]
    exact hmin
  · rw [hofs]
    exact hmax

/-- C2 witness: demo flight 1's position series has timestamps 5000..105000
(offsets 0..100s from its minimum 5000); trimming to `[10, 40]` keeps the 2
rows at offsets 15s and 20s, the new series is nonempty, and in its own
frame runs from 0 to at most 30s. -/
theorem trim_correctness_witness :
    WF demoStore ∧
    (∀ ac ∈ aircraftOf demoStore 1,
      positionOf demoStore ac.id ≠ [] ∧ attitudeOf demoStore ac.id ≠ [] ∧
      engineOf demoStore ac.id ≠ []) ∧
    (5000 : Int) = minIntList ((positionOf demoStore 1).map (fun r => r.timestamp)) ∧
    (∃ r ∈ positionOf demoStore 1,
      10 * 1000 ≤ r.timestamp - 5000 ∧ r.timestamp - 5000 ≤ 40 * 1000) ∧
    (∃ s1, trimFlight demoStore 1 "Cut" 10 40 = .ok (2, s1) ∧
      (positionOf s1 2).length =
        ((positionOf demoStore 1).filter (fun r =>
          (10 : Int) * 1000 ≤ r.timestamp - 5000 ∧ r.timestamp - 5000 ≤ 40 * 1000)).length ∧
      positionOf s1 2 ≠ [] ∧
      minIntList (ownFrameTimestamps (positionOf s1 2)) = 0 ∧
      maxIntList (ownFrameTimestamps (positionOf s1 2)) ≤ 30 * 1000) := by
  obtain ⟨s1, h1, h2, h3, h4, h5⟩ := trim_correctness demoStore 1 "Cut"
    (by unfold WF; decide) ({ mkFlightRow 1 with title := some "Original" }) rfl
    (by decide) 0 (by decide) (positionOf demoStore 1) rfl 5000 (by decide)
    ⟨mkPositionRow 1 20000, by decide, by decide, by decide⟩
  exact ⟨by unfold WF; decide, by decide, by decide,
    ⟨mkPositionRow 1 20000, by decide, by decide, by decide⟩, s1, h1, h2, h3, h4, h5⟩

end OperatorStation
